import Mathlib

/-!
Verification development for the sprint-gadget resolver backend
(`src/resolvers/index.js`).  The repository file contains two evolutionary
versions of the resolvers separated by a document marker; line references
below use the concatenated file's numbering, so lines 1-1153 are the first
version and lines 1154-2439 the second (current) version.

Modelling conventions:
* Hours are exact rationals (`ℚ`); the JavaScript `Math.round(x*10)/10`
  pattern is modelled by `round10` below.
* Timestamps are whole days (`Int`, days since the Unix epoch, so that
  1970-01-01 is day 0, a Thursday); the source normalises every timestamp
  it compares with `setHours(0,0,0,0)` / `toISOString().split(T)[0]`, so
  day granularity is faithful for the compared values.
* Jira HTTP responses (active sprint, issue search, changelog analysis
  results, worklogs, storage contents) enter as an explicit environment;
  fallible fetches are `Except String` values mirroring `throw`/response
  checks in the source.
-/

set_option autoImplicit false

namespace SprintGadgets

/-- JavaScript `Math.round`: round half toward positive infinity. -/
def jsRound (q : ℚ) : ℤ := ⌊q + 1/2⌋

/-- The source's ubiquitous `Math.round(x * 10) / 10` (one decimal place). -/
def round10 (q : ℚ) : ℚ := (jsRound (q * 10) : ℚ) / 10

/-- `secondsToHours` (lines 1181-1184): `if (!seconds) return 0;
return Math.round((seconds / 3600) * 10) / 10;`.  `none` models a
null/undefined Jira time field; `some 0` is falsy in JS as well. -/
def secondsToHours : Option ℕ → ℚ
  | none => 0
  | some n => if n = 0 then 0 else round10 ((n : ℚ) / 3600)

/-- `new Date(d).getDay()` on a whole day: 1970-01-01 (day 0) is a Thursday,
so the JS weekday index is `(d + 4) mod 7` (0 = Sunday, 6 = Saturday). -/
def jsGetDay (d : ℤ) : ℤ := (d + 4) % 7

/-- `isWorkingDay` (lines 1165-1168): Monday through Friday. -/
def isWorkingDayB (d : ℤ) : Bool := jsGetDay d != 0 && jsGetDay d != 6

/-- The consecutive days `a, a+1, ..., a+n-1`. -/
def dayRange (a : ℤ) : ℕ → List ℤ
  | 0 => []
  | n + 1 => a :: dayRange (a + 1) n

/-- Number of loop iterations of `while (current <= end)` stepping one day. -/
def spanDays (s e : ℤ) : ℕ := if e < s then 0 else (e - s).toNat + 1

def workingDaysDefault : ℕ := 10

def hoursPerDay : ℕ := 8

/-- `countWorkingDays` (lines 1170-1179): Mon-Fri days in `[start, end]`
inclusive, with the `count || WORKING_DAYS_DEFAULT` fallback. -/
def countWorkingDays (s e : ℤ) : ℕ :=
  let c := ((dayRange s (spanDays s e)).filter isWorkingDayB).length
  if c = 0 then workingDaysDefault else c

/-- Is `sub` an initial segment of `l` (character lists)? -/
def isPreChars : List Char → List Char → Bool
  | [], _ => true
  | _ :: _, [] => false
  | a :: s, b :: t => a == b && isPreChars s t

/-- Does `l` contain `sub` as a contiguous segment? -/
def charsContain (sub : List Char) : List Char → Bool
  | [] => sub.isEmpty
  | c :: t => isPreChars sub (c :: t) || charsContain sub t

/-- JavaScript `s.includes(sub)`. -/
def strIncludes (s sub : String) : Bool := charsContain sub.toList s.toList

/-- ASCII lowering of one character (the source only lowercases ASCII
status/type names before matching them against ASCII vocabulary). -/
def lowerChar (c : Char) : Char :=
  if 65 ≤ c.toNat && c.toNat ≤ 90 then Char.ofNat (c.toNat + 32) else c

/-- JavaScript `s.toLowerCase().includes(sub)` for ASCII `sub`. -/
def strIncludesLower (s sub : String) : Bool :=
  charsContain sub.toList (s.toList.map lowerChar)

/-- JS truthiness on an optional string (`null`/`undefined`/empty are falsy). -/
def truthyStr : Option String → Option String
  | some s => if s = "" then none else some s
  | none => none

/-- JS `a || b` on an optional string with a string default. -/
def strOrElse (a : Option String) (b : String) : String :=
  match truthyStr a with
  | some s => s
  | none => b

/-- JS `a || b` on an optional natural number (0 is falsy). -/
def natOrElse (a : Option ℕ) (b : ℕ) : ℕ :=
  match a with
  | some n => if n = 0 then b else n
  | none => b

/-- JS truthiness of an optional numeric id (`if (!boardId)`). -/
def jsTruthyNat : Option ℕ → Bool
  | some n => n != 0
  | none => false

/-- `doneStatuses` (line 1721 and elsewhere). -/
def doneStatuses : List String := ["done", "closed", "resolved", "complete"]

/-- Case-insensitive substring match of a status name against the done
vocabulary: `doneStatuses.some(s => status.includes(s))` applied to
`(name || '').toLowerCase()`. -/
def isDoneStatusName (statusName : Option String) : Bool :=
  doneStatuses.any (fun s => strIncludesLower (statusName.getD "") s)

/-- `getStatusOrder`'s `STATUS_ORDER` vocabulary (lines 1192-1196). -/
def statusOrderList : List (String × ℕ) :=
  [("in progress", 1), ("in progress - main task", 1),
   ("to do", 2), ("open", 2), ("backlog", 2), ("hold", 2),
   ("done", 3), ("closed", 3), ("resolved", 3), ("complete", 3)]

/-- `getStatusOrder` (lines 1198-1204): rank of the first vocabulary entry
the lowercased status name contains, defaulting to 2. -/
def getStatusOrder (statusName : Option String) : ℕ :=
  match statusOrderList.find? (fun kv => strIncludesLower (statusName.getD "") kv.1) with
  | some kv => kv.2
  | none => 2

/-- `sortByStatus` (lines 1206-1212): ascending stable sort on the status
rank (JS `Array.prototype.sort` is stable). -/
def sortByStatusKey {α : Type} (statusOf : α → Option String) (items : List α) : List α :=
  items.mergeSort (fun a b => getStatusOrder (statusOf a) ≤ getStatusOrder (statusOf b))

/-! ### Issue model (the Jira fields requested at lines 1371-1375) -/

/-- One entry of `issue.fields.fixVersions` as consumed at lines
2379-2390. -/
structure FixVersion where
  id : ℕ
  name : String := ""
  description : Option String := none
  releaseDate : Option ℤ := none
  released : Bool := false
  deriving DecidableEq, Repr

structure IssueFields where
  summary : String := ""
  statusName : Option String := none
  priorityName : Option String := none
  assigneeDisplayName : Option String := none
  issuetypeName : Option String := none
  issuetypeSubtask : Bool := false
  timeoriginalestimate : Option ℕ := none
  timeestimate : Option ℕ := none
  timespent : Option ℕ := none
  created : ℤ := 0
  duedate : Option ℤ := none
  parentKey : Option String := none
  subtasksCount : ℕ := 0
  fixVersions : List FixVersion := []
  deriving DecidableEq, Repr

structure Issue where
  key : String
  fields : IssueFields
  deriving DecidableEq, Repr

/-! ### Subtask classification (lines 1214-1340) -/

/-- `isParentWithSubtasks` (lines 1219-1226): a non-empty `fields.subtasks`
list, or an issue-type name containing "main task". -/
def isParentWithSubtasks (i : Issue) : Bool :=
  i.fields.subtasksCount > 0 ||
    strIncludesLower (i.fields.issuetypeName.getD "") "main task"

/-- `isSubtaskIssue` (lines 1228-1232). -/
def isSubtaskIssue (i : Issue) : Bool :=
  i.fields.issuetypeSubtask ||
    strIncludesLower (i.fields.issuetypeName.getD "") "sub-task" ||
    strIncludesLower (i.fields.issuetypeName.getD "") "subtask"

structure SubtaskMap where
  subtasksByParent : String → List Issue
  subtaskKeys : List String
  parentKeys : List String

/-- `buildSubtaskMap` (lines 1235-1260).  Method 1 registers each subtask in
the working set under its (truthy) parent key; method 2 additionally marks
issues that are parents via `isParentWithSubtasks`. -/
def buildSubtaskMap (issues : List Issue) : SubtaskMap where
  subtasksByParent pk :=
    issues.filter (fun s => isSubtaskIssue s && truthyStr s.fields.parentKey == some pk)
  subtaskKeys :=
    (issues.filter (fun s => isSubtaskIssue s && (truthyStr s.fields.parentKey).isSome)).map
      (fun s => s.key)
  parentKeys :=
    (issues.filterMap (fun s => if isSubtaskIssue s then truthyStr s.fields.parentKey else none))
      ++ (issues.filter isParentWithSubtasks).map (fun s => s.key)

/-- One issue's contribution to `computeEffectiveRemaining` (lines 1273-1291):
subtasks in the working set are skipped, a parent sums only the subtasks
present in the working set (zero when none are present), and any other issue
contributes its own `timeestimate`. -/
def contribRemaining (issues : List Issue) (i : Issue) : ℚ :=
  let m := buildSubtaskMap issues
  if m.subtaskKeys.contains i.key then 0
  else if m.parentKeys.contains i.key then
    (if (m.subtasksByParent i.key).length > 0 then
      ((m.subtasksByParent i.key).map (fun s => secondsToHours s.fields.timeestimate)).sum
    else 0)
  else secondsToHours i.fields.timeestimate

/-- `computeEffectiveRemaining` (lines 1269-1294). -/
def computeEffectiveRemaining (issues : List Issue) : ℚ :=
  (issues.map (contribRemaining issues)).sum

/-- One issue's contribution to `computeEffectiveOriginalEstimate`
(lines 1300-1314). -/
def contribOriginalEstimate (issues : List Issue) (i : Issue) : ℚ :=
  let m := buildSubtaskMap issues
  if m.subtaskKeys.contains i.key then 0
  else if m.parentKeys.contains i.key then
    (if (m.subtasksByParent i.key).length > 0 then
      ((m.subtasksByParent i.key).map (fun s => secondsToHours s.fields.timeoriginalestimate)).sum
    else 0)
  else secondsToHours i.fields.timeoriginalestimate

/-- `computeEffectiveOriginalEstimate` (lines 1296-1317). -/
def computeEffectiveOriginalEstimate (issues : List Issue) : ℚ :=
  (issues.map (contribOriginalEstimate issues)).sum

/-- One issue's contribution to `computeEffectiveSpent` (lines 1323-1337). -/
def contribSpent (issues : List Issue) (i : Issue) : ℚ :=
  let m := buildSubtaskMap issues
  if m.subtaskKeys.contains i.key then 0
  else if m.parentKeys.contains i.key then
    (if (m.subtasksByParent i.key).length > 0 then
      ((m.subtasksByParent i.key).map (fun s => secondsToHours s.fields.timespent)).sum
    else 0)
  else secondsToHours i.fields.timespent

/-- `computeEffectiveSpent` (lines 1319-1340). -/
def computeEffectiveSpent (issues : List Issue) : ℚ :=
  (issues.map (contribSpent issues)).sum

/-! ### Burndown series generation (lines 1927-1990) -/

/-- One entry of the `dataPoints` array.  `day := none` is the synthetic
"Start Sprint" point whose `date` field is the literal string start; the
second version's start point carries no `totalRemaining`/`dayLogged` keys,
modelled as `none` there as well. -/
structure DataPoint where
  day : Option ℤ
  ideal : ℚ
  remaining : Option ℚ
  totalRemaining : Option ℚ
  timeLogged : Option ℚ
  dayLogged : Option ℚ
  cumulativeLogged : Option ℚ
  added : ℚ
  removed : ℚ
  deriving DecidableEq, Repr

/-- Inputs of the data-point loop, as computed by `getBurndownData` just
before line 1927. -/
structure SeriesCfg where
  startDay : ℤ
  endDay : ℤ
  today : ℤ
  maxCap : ℚ
  workingDays : ℕ
  totalOE : ℚ
  loggedOn : ℤ → ℚ
  addedOn : ℤ → ℚ
  removedOn : ℤ → ℚ

/-- `dailyDecrease = maxCapacity / workingDays` (line 1931). -/
def dailyDecrease (cfg : SeriesCfg) : ℚ := cfg.maxCap / (cfg.workingDays : ℚ)

/-- Mutable loop state: `workingDayCount`, `runningRemaining`,
`cumulativeLogged` (lines 1930, 1935-1936). -/
structure LoopSt where
  wdc : ℕ
  running : ℚ
  cum : ℚ
  deriving DecidableEq, Repr

/-- One iteration's state update (lines 1951-1967): the working-day counter
skips the start date, and remaining/logged accumulate only on past days. -/
def stepSt (cfg : SeriesCfg) (st : LoopSt) (d : ℤ) : LoopSt :=
  let wdc := if isWorkingDayB d && decide (cfg.startDay < d) then st.wdc + 1 else st.wdc
  if d ≤ cfg.today then
    { wdc
      running := st.running - cfg.loggedOn d + cfg.addedOn d - cfg.removedOn d
      cum := st.cum + cfg.loggedOn d }
  else
    { wdc, running := st.running, cum := st.cum }

/-- The data point pushed for day `d` (lines 1955-1988), built from the
already-updated loop state.  The plotted `remaining` bar subtracts the same
day's scope-added hours so that the stacked added bar restores the total
(comment at lines 1969-1972). -/
def mkPoint (cfg : SeriesCfg) (st : LoopSt) (d : ℤ) : DataPoint :=
  let ideal := max 0 (cfg.maxCap - dailyDecrease cfg * (st.wdc : ℚ))
  let past := d ≤ cfg.today
  let add := cfg.addedOn d
  let rem := cfg.removedOn d
  { day := some d
    ideal := round10 ideal
    remaining := if past then some (round10 (st.running - add)) else none
    totalRemaining := if past then some (round10 st.running) else none
    timeLogged := if past then some (round10 st.cum) else none
    dayLogged := if past then some (round10 (cfg.loggedOn d)) else none
    cumulativeLogged := if past then some (round10 st.cum) else none
    added := if 0 < add then round10 add else 0
    removed := if 0 < rem then -round10 rem else 0 }

/-- The `while (current <= endDate)` loop over an explicit day list. -/
def runDays (cfg : SeriesCfg) (st : LoopSt) : List ℤ → List DataPoint
  | [] => []
  | d :: rest => mkPoint cfg (stepSt cfg st d) d :: runDays cfg (stepSt cfg st d) rest

/-- The synthetic first data point (lines 1938-1948). -/
def startPoint (cfg : SeriesCfg) : DataPoint where
  day := none
  ideal := round10 cfg.maxCap
  remaining := some (round10 cfg.totalOE)
  totalRemaining := none
  timeLogged := some 0
  dayLogged := some 0
  cumulativeLogged := some 0
  added := 0
  removed := 0

/-- Number of emitted loop days. -/
def numDays (cfg : SeriesCfg) : ℕ := spanDays cfg.startDay cfg.endDay

/-- The loop state before the first iteration (lines 1930, 1935-1936). -/
def initSt (cfg : SeriesCfg) : LoopSt where
  wdc := 0
  running := cfg.totalOE
  cum := 0

/-- The full `dataPoints` array (start point followed by one point per
calendar day of the sprint). -/
def buildSeries (cfg : SeriesCfg) : List DataPoint :=
  startPoint cfg :: runDays cfg (initSt cfg) (dayRange cfg.startDay (numDays cfg))

/-! Reference sequences used to state properties of the loop. -/

/-- State after processing days `a, a+1, ..., a+k-1`. -/
def iterSt (cfg : SeriesCfg) (st : LoopSt) (a : ℤ) : ℕ → LoopSt
  | 0 => st
  | k + 1 => iterSt cfg (stepSt cfg st a) (a + 1) k

/-- Working days counted by the loop among `a, ..., a+k-1`. -/
def wdCount (cfg : SeriesCfg) (a : ℤ) : ℕ → ℕ
  | 0 => 0
  | k + 1 =>
    (if isWorkingDayB a && decide (cfg.startDay < a) then 1 else 0) + wdCount cfg (a + 1) k

/-- Net remaining-hours drift over days `a, ..., a+k-1`
(scope added minus scope removed minus logged). -/
def deltaR (cfg : SeriesCfg) (a : ℤ) : ℕ → ℚ
  | 0 => 0
  | k + 1 => (cfg.addedOn a - cfg.removedOn a - cfg.loggedOn a) + deltaR cfg (a + 1) k

/-- Hours logged over days `a, ..., a+k-1`. -/
def deltaL (cfg : SeriesCfg) (a : ℤ) : ℕ → ℚ
  | 0 => 0
  | k + 1 => cfg.loggedOn a + deltaL cfg (a + 1) k

/-- The spec's forward accumulation: start at the total original estimate,
then `remaining[d] = remaining[d-1] - logged(d) + added(d) - removed(d)`
for the d-th sprint day (day index 1 is the sprint start date). -/
def remAccum (cfg : SeriesCfg) : ℕ → ℚ
  | 0 => cfg.totalOE
  | k + 1 =>
    remAccum cfg k - cfg.loggedOn (cfg.startDay + k) + cfg.addedOn (cfg.startDay + k)
      - cfg.removedOn (cfg.startDay + k)

/-- Working days elapsed since sprint start after `k` calendar days
(the start day itself counts as 0 elapsed): working days in
`{start+1, ..., start+k}`. -/
def elapsedWD (start : ℤ) (k : ℕ) : ℕ :=
  ((dayRange (start + 1) k).filter isWorkingDayB).length

/-! ### Baseline storage (lines 1711-1755) -/

/-- One entry of the stored baseline snapshot (lines 1731-1742). -/
structure BaselineIssue where
  key : String
  summary : String := ""
  originalEstimate : ℚ := 0
  remainingEstimate : ℚ := 0
  timeSpent : ℚ := 0
  assignee : Option String := none
  status : String := "To Do"
  issueType : String := "Task"
  isSubtask : Bool := false
  parentKey : Option String := none
  deriving DecidableEq, Repr

/-- The value stored under `baseline-{sprintId}` (lines 1727-1743). -/
structure Baseline where
  sprintId : ℕ
  createdAt : ℤ := 0
  issueCount : ℕ := 0
  issues : List BaselineIssue := []
  deriving DecidableEq, Repr

/-- Projection of one issue into its baseline entry (lines 1731-1741). -/
def mkBaselineIssue (i : Issue) : BaselineIssue where
  key := i.key
  summary := i.fields.summary
  originalEstimate := secondsToHours i.fields.timeoriginalestimate
  remainingEstimate := secondsToHours i.fields.timeestimate
  timeSpent := secondsToHours i.fields.timespent
  assignee := truthyStr i.fields.assigneeDisplayName
  status := strOrElse i.fields.statusName "To Do"
  issueType := strOrElse i.fields.issuetypeName "Task"
  isSubtask := isSubtaskIssue i
  parentKey := truthyStr i.fields.parentKey

/-- `saveSprintBaseline` (lines 1720-1746): snapshot the non-Done issues. -/
def saveSprintBaseline (sprintId : ℕ) (now : ℤ) (issues : List Issue) : Baseline :=
  let activeIssues := issues.filter (fun i => !isDoneStatusName i.fields.statusName)
  { sprintId
    createdAt := now
    issueCount := activeIssues.length
    issues := activeIssues.map mkBaselineIssue }

/-- Count of issues not in a Done-like status (lines 1773-1777). -/
def currentActiveCount (issues : List Issue) : ℕ :=
  (issues.filter (fun i => !isDoneStatusName i.fields.statusName)).length

/-- The corruption heuristic (line 1779):
`baseline.issues.length < currentActiveCount * 0.3 && baseline.issues.length < 10`. -/
def isCorruptBaseline (b : Baseline) (currentActive : ℕ) : Bool :=
  decide ((b.issues.length : ℚ) < (currentActive : ℚ) * (3 / 10)) && b.issues.length < 10

/-- Baseline get-or-create with corruption auto-repair (lines 1769-1787).
Returns the baseline used for the rest of the computation together with a
flag telling whether the stored value was replaced. -/
def baselineAfterFetch (stored : Option Baseline) (sprintId : ℕ) (now : ℤ)
    (allIssues : List Issue) : Baseline × Bool :=
  match stored with
  | none => (saveSprintBaseline sprintId now allIssues, true)
  | some b =>
    if isCorruptBaseline b (currentActiveCount allIssues) then
      (saveSprintBaseline sprintId now allIssues, true)
    else (b, false)

/-! ### Endpoint environment and the getBurndownData resolver
(lines 1758-2087) -/

structure Sprint where
  id : ℕ
  name : String
  startDate : ℤ
  endDate : ℤ
  deriving DecidableEq, Repr

/-- One worklog entry as consumed at lines 1918-1925 (`started` may be
absent). -/
structure Worklog where
  startedDay : Option ℤ
  timeSpentSeconds : ℕ
  deriving DecidableEq, Repr

structure Board where
  id : ℕ
  name : String
  projectKey : Option String
  deriving DecidableEq, Repr

/-- The stored gadget configuration (line 1695 default shape). -/
structure StoredConfig where
  boardId : Option ℕ := none
  teamSize : ℕ := 10
  workingDays : ℕ := 10
  deriving DecidableEq, Repr

/-- The resolver payload `{ boardId, assignee, teamSize, expand }`
(`expand` models the JS truthiness `!!expand` used at lines 2341, 2353). -/
structure BurndownPayload where
  boardId : Option ℕ := none
  assignee : Option String := none
  teamSize : Option ℕ := none
  expand : Bool := false
  deriving DecidableEq, Repr

/-- External collaborator responses consumed by the resolvers: the active
sprint, the issue search (which may throw), the stored baseline, the result
of `analyzeSprintChangelog` per issue key (added/removed dates), the
removed-from-sprint JQL scan, per-issue worklogs, the board list, the stored
configuration, and the current day. -/
structure JiraEnv where
  activeSprint : Option Sprint := none
  issuesResult : Except String (List Issue) := .ok []
  storedBaseline : Option Baseline := none
  addedDateOf : String → Option ℤ := fun _ => none
  removedFromSprint : List Issue := []
  removedDateOf : String → Option ℤ := fun _ => none
  worklogsOf : String → List Worklog := fun _ => []
  boardsResult : Except String (List Board) := .ok []
  configStored : Except String (Option StoredConfig) := .ok none
  saveConfigResult : Except String Unit := .ok ()
  today : ℤ := 0
  now : ℤ := 0

/-- The `{ success: true, ... } / { success: false, error }` envelope every
computing resolver returns. -/
inductive Tagged (α : Type) where
  | success (data : α)
  | failure (error : String)
  deriving DecidableEq, Repr

/-- Project the payload out of a success result. -/
def taggedData {α : Type} : Tagged α → Option α
  | .success d => some d
  | .failure _ => none

/-- `[...new Set(list)]` on strings: deduplicate keeping first occurrences. -/
def dedupFirstAux (seen : List String) : List String → List String
  | [] => []
  | a :: t =>
    if seen.contains a then dedupFirstAux seen t
    else a :: dedupFirstAux (a :: seen) t

def dedupFirst (l : List String) : List String := dedupFirstAux [] l

/-- The unique truthy assignee display names (line 1789). -/
def allAssigneesOf (issues : List Issue) : List String :=
  dedupFirst ((issues.filterMap (fun i => i.fields.assigneeDisplayName)).filter (fun s => s != ""))

/-- Is the per-assignee filter active (`assignee && assignee !== All`,
lines 1795)?  The empty string is JS-falsy. -/
def assigneeFilterActive : Option String → Bool
  | some a => a != "" && a != "All"
  | none => false

/-- The effective team size (lines 1792, 1797):
`configTeamSize || allAssignees.length || 1`, overridden to 1 whenever the
assignee filter is active. -/
def computeTeamSize (cfgTeam : Option ℕ) (assigneeCount : ℕ) (assignee : Option String) : ℕ :=
  if assigneeFilterActive assignee then 1
  else natOrElse cfgTeam (if assigneeCount = 0 then 1 else assigneeCount)

/-- The date an issue counts as scope-added (lines 1825-1854): changelogs
are fetched only for issues created on/after sprint start; a
changelog-derived sprint-entry date wins when it is after sprint start,
otherwise (no changelog evidence) a creation date after sprint start is
used. -/
def addedDayOf (startDay : ℤ) (chg : String → Option ℤ) (i : Issue) : Option ℤ :=
  let histAdded := if startDay ≤ i.fields.created then chg i.key else none
  match histAdded with
  | some d => if startDay < d then some d else none
  | none => if startDay < i.fields.created then some i.fields.created else none

/-- The date a removed issue counts as scope-removed (lines 1885-1894):
changelog date if available, else today clamped to the sprint end. -/
def removedDayOf (env : JiraEnv) (sprint : Sprint) (r : Issue) : ℤ :=
  match env.removedDateOf r.key with
  | some d => d
  | none => if env.today ≤ sprint.endDate then env.today else sprint.endDate

/-- A detected scope-change entry: key, attributed day, original estimate
in hours. -/
structure ScopeEntry where
  key : String
  day : ℤ
  originalEstimate : ℚ
  deriving DecidableEq, Repr

/-- The fields of the success result of `getBurndownData` that the claims
concern (lines 2050-2082; the `issueDetails`/`_debug` diagnostic blocks are
not modelled). -/
structure BurndownData where
  dataPoints : List DataPoint
  sprintName : String
  maxCapacity : ℚ
  totalOriginalEstimate : ℚ
  currentRemaining : ℚ
  totalSpent : ℚ
  scopeAddedTotal : ℚ
  scopeRemovedTotal : ℚ
  workingDays : ℕ
  teamSize : ℕ
  assignees : List String
  addedIssuesCount : ℕ
  removedIssuesCount : ℕ
  baselineIssueCount : ℕ
  deriving DecidableEq, Repr

/-- The scope-added entries over the (possibly assignee-filtered) working
set (lines 1833-1872). -/
def addedEntriesOf (env : JiraEnv) (sprint : Sprint) (issues : List Issue) : List ScopeEntry :=
  issues.filterMap (fun i =>
    (addedDayOf sprint.startDate env.addedDateOf i).map (fun d =>
      { key := i.key, day := d
        originalEstimate := secondsToHours i.fields.timeoriginalestimate }))

/-- The scope-removed entries (lines 1874-1910). -/
def removedEntriesOf (env : JiraEnv) (sprint : Sprint) : List ScopeEntry :=
  env.removedFromSprint.map (fun r =>
    { key := r.key, day := removedDayOf env sprint r
      originalEstimate := secondsToHours r.fields.timeoriginalestimate })

/-- Total hours attributed to day `d` among the given scope entries
(`scopeChangesByDate`). -/
def scopeOn (entries : List ScopeEntry) (d : ℤ) : ℚ :=
  ((entries.filter (fun e => e.day == d)).map (fun e => e.originalEstimate)).sum

/-- `worklogByDate` (lines 1916-1925) for the filtered working set. -/
def worklogOn (env : JiraEnv) (issues : List Issue) (d : ℤ) : ℚ :=
  ((((issues.map (fun i => env.worklogsOf i.key)).flatten).filter
      (fun w => w.startedDay == some d)).map
    (fun w => secondsToHours (some w.timeSpentSeconds))).sum

/-- The series inputs assembled by `getBurndownData` (lines 1806-1935). -/
def seriesCfgOf (env : JiraEnv) (sprint : Sprint) (issues : List Issue)
    (workingDays : ℕ) (maxCap totalOriginalEstimate : ℚ) : SeriesCfg where
  startDay := sprint.startDate
  endDay := sprint.endDate
  today := env.today
  maxCap := maxCap
  workingDays := workingDays
  totalOE := totalOriginalEstimate
  loggedOn := worklogOn env issues
  addedOn := scopeOn (addedEntriesOf env sprint issues)
  removedOn := scopeOn (removedEntriesOf env sprint)

/-- The successful body of `getBurndownData` (lines 1789-2082) given the
fetched sprint, issue list and resolved baseline. -/
def burndownCompute (env : JiraEnv) (payload : BurndownPayload) (sprint : Sprint)
    (allIssues : List Issue) (baseline : Baseline) : BurndownData :=
  let allAssignees := allAssigneesOf allIssues
  let filterOn := assigneeFilterActive payload.assignee
  let issues :=
    if filterOn then
      allIssues.filter (fun i => i.fields.assigneeDisplayName == payload.assignee)
    else allIssues
  let teamSize := computeTeamSize payload.teamSize allAssignees.length payload.assignee
  let filteredBaseline :=
    if filterOn then
      { baseline with issues := baseline.issues.filter (fun b => b.assignee == payload.assignee) }
    else baseline
  let workingDays := countWorkingDays sprint.startDate sprint.endDate
  let maxCap : ℚ := (workingDays : ℚ) * (hoursPerDay : ℚ) * (teamSize : ℚ)
  let baseOE := (filteredBaseline.issues.map (fun b => b.originalEstimate)).sum
  let totalOriginalEstimate :=
    if baseOE = 0 then computeEffectiveOriginalEstimate issues else baseOE
  let addedEntries := addedEntriesOf env sprint issues
  let removedEntries := removedEntriesOf env sprint
  let cfg := seriesCfgOf env sprint issues workingDays maxCap totalOriginalEstimate
  { dataPoints := buildSeries cfg
    sprintName := sprint.name
    maxCapacity := round10 maxCap
    totalOriginalEstimate := round10 totalOriginalEstimate
    currentRemaining := round10 (computeEffectiveRemaining issues)
    totalSpent := round10 (computeEffectiveSpent issues)
    scopeAddedTotal := round10 ((addedEntries.map (fun e => e.originalEstimate)).sum)
    scopeRemovedTotal := round10 ((removedEntries.map (fun e => e.originalEstimate)).sum)
    workingDays := workingDays
    teamSize := teamSize
    assignees := allAssignees
    addedIssuesCount := addedEntries.length
    removedIssuesCount := removedEntries.length
    baselineIssueCount := filteredBaseline.issues.length }

/-- The `getBurndownData` resolver (lines 1758-2087).  The second component
is the baseline storage slot after the call (the only storage writes are the
corruption-repair delete plus the create-if-absent save at lines
1780-1787). -/
def getBurndownData (env : JiraEnv) (payload : BurndownPayload) :
    Tagged BurndownData × Option Baseline :=
  if !jsTruthyNat payload.boardId then
    (.failure "Board ID is required", env.storedBaseline)
  else
    match env.activeSprint with
    | none => (.failure "No active sprint found", env.storedBaseline)
    | some sprint =>
      match env.issuesResult with
      | .error e => (.failure e, env.storedBaseline)
      | .ok allIssues =>
        let baseline := (baselineAfterFetch env.storedBaseline sprint.id env.now allIssues).1
        (.success (burndownCompute env payload sprint allIssues baseline), some baseline)

/-! ### Sprint health (lines 2106-2137, and lines 624-665 of the first
version) -/

inductive Health where
  | underestimated
  | normal
  | good
  deriving DecidableEq, Repr

/-- Per-issue classification of the current version (lines 2121-2127):
strict comparison of the original estimate with spent + remaining. -/
def classifyHealth (origSec spentSec remSec : Option ℕ) : Health :=
  let original := secondsToHours origSec
  let actualTotal := secondsToHours spentSec + secondsToHours remSec
  if original < actualTotal then .underestimated
  else if actualTotal < original then .good
  else .normal

/-- Per-issue classification of the first version (lines 625-648), which
absorbs floating-point noise with `Math.abs(original - totalActual) < 0.1`. -/
def classifyHealthDetailed (origSec spentSec remSec : Option ℕ) : Health :=
  let original := secondsToHours origSec
  let totalActual := secondsToHours spentSec + secondsToHours remSec
  if original < totalActual then .underestimated
  else if |original - totalActual| < 1 / 10 then .normal
  else .good

/-- Classification of one issue from its fields. -/
def healthOf (i : Issue) : Health :=
  classifyHealth i.fields.timeoriginalestimate i.fields.timespent i.fields.timeestimate

structure HealthData where
  under : ℕ
  normal : ℕ
  good : ℕ
  total : ℕ
  sprintName : String
  deriving DecidableEq, Repr

/-- The `getSprintHealth` resolver (lines 2106-2137). -/
def getSprintHealth (env : JiraEnv) (payload : BurndownPayload) : Tagged HealthData :=
  if !jsTruthyNat payload.boardId then .failure "Board ID is required"
  else
    match env.activeSprint with
    | none => .failure "No active sprint found"
    | some sprint =>
      match env.issuesResult with
      | .error e => .failure e
      | .ok allIssues =>
        let issues :=
          if assigneeFilterActive payload.assignee then
            allIssues.filter (fun i => i.fields.assigneeDisplayName == payload.assignee)
          else allIssues
        .success
          { under := (issues.filter (fun i => healthOf i == .underestimated)).length
            normal := (issues.filter (fun i => healthOf i == .normal)).length
            good := (issues.filter (fun i => healthOf i == .good)).length
            total := issues.length
            sprintName := sprint.name }

/-! ### The simple resolvers (lines 1682-1709, 2089-2103) -/

/-- `getConfig` (lines 1691-1699): returns the stored configuration object
directly, or the default `{ boardId: null, teamSize: 10, workingDays: 10 }`
when nothing is stored or the storage read throws. -/
def getConfig (env : JiraEnv) : StoredConfig :=
  match env.configStored with
  | .ok (some c) => c
  | .ok none => { boardId := none, teamSize := 10, workingDays := 10 }
  | .error _ => { boardId := none, teamSize := 10, workingDays := 10 }

/-- `getBoards` (lines 1682-1689); the JS `.map` projects exactly the
`{id, name, projectKey}` triple that `Board` models. -/
def getBoards (env : JiraEnv) : Tagged (List Board) :=
  match env.boardsResult with
  | .ok boards => .success boards
  | .error e => .failure e

/-- `saveConfig` (lines 1701-1709). -/
def saveConfig (env : JiraEnv) : Tagged Unit :=
  match env.saveConfigResult with
  | .ok _ => .success ()
  | .error e => .failure e

/-- `deleteBaseline` (lines 2090-2103); second component is the baseline
storage slot after the call. -/
def deleteBaseline (env : JiraEnv) (payload : BurndownPayload) :
    Tagged String × Option Baseline :=
  if !jsTruthyNat payload.boardId then
    (.failure "Board ID is required", env.storedBaseline)
  else
    match env.activeSprint with
    | none => (.failure "No active sprint found", env.storedBaseline)
    | some sprint =>
      (.success ("Baseline for sprint " ++ sprint.name ++ " deleted."), none)

/-! ### At-risk items (lines 2139-2190) -/

inductive RiskReason where
  | timeBoxExceeded
  | deadlineExceeded
  deriving DecidableEq, Repr

/-- The risk triggers (lines 2162-2171): time-box exceeded when remaining
is 0 with a positive original estimate; a due date on or before today
overrides with deadline exceeded. -/
def riskReasonOf (today : ℤ) (i : Issue) : Option RiskReason :=
  let remaining := secondsToHours i.fields.timeestimate
  let original := secondsToHours i.fields.timeoriginalestimate
  let r1 : Option RiskReason :=
    if remaining = 0 ∧ 0 < original then some .timeBoxExceeded else none
  match i.fields.duedate with
  | some d => if d ≤ today then some .deadlineExceeded else r1
  | none => r1

/-- One at-risk entry (lines 2174-2180). -/
structure AtRiskItem where
  key : String
  summary : String
  assignee : String
  priority : String
  status : String
  originalEstimate : ℚ
  remainingEstimate : ℚ
  riskReason : RiskReason

def mkAtRiskItem (i : Issue) (r : RiskReason) : AtRiskItem where
  key := i.key
  summary := i.fields.summary
  assignee := strOrElse i.fields.assigneeDisplayName "Unassigned"
  priority := strOrElse i.fields.priorityName "Medium"
  status := strOrElse i.fields.statusName "To Do"
  originalEstimate := secondsToHours i.fields.timeoriginalestimate
  remainingEstimate := secondsToHours i.fields.timeestimate
  riskReason := r

structure AtRiskData where
  items : List AtRiskItem
  total : ℕ
  sprintName : String

/-- The `getAtRiskItems` resolver (lines 2139-2190): skip Done-like
issues, collect triggered items, sort by status rank. -/
def getAtRiskItems (env : JiraEnv) (payload : BurndownPayload) : Tagged AtRiskData :=
  if !jsTruthyNat payload.boardId then .failure "Board ID is required"
  else
    match env.activeSprint with
    | none => .failure "No active sprint found"
    | some sprint =>
      match env.issuesResult with
      | .error e => .failure e
      | .ok allIssues =>
        let issues :=
          if assigneeFilterActive payload.assignee then
            allIssues.filter (fun i => i.fields.assigneeDisplayName == payload.assignee)
          else allIssues
        let atRiskItems := issues.filterMap (fun i =>
          if isDoneStatusName i.fields.statusName then none
          else (riskReasonOf env.today i).map (mkAtRiskItem i))
        let sorted := sortByStatusKey (fun it => some it.status) atRiskItems
        .success { items := sorted, total := sorted.length, sprintName := sprint.name }

/-! ### Scope changes (lines 2192-2303) -/

/-- One entry of the `added`/`removed` lists (lines 2244-2255,
2270-2281). -/
structure ScopeChangeItem where
  key : String
  summary : String
  assignee : String
  priority : Option String
  status : Option String
  changeType : String
  changeDate : ℤ
  changeSource : String
  originalEstimate : ℚ
  remainingEstimate : ℚ

/-- The added-date attribution of `getScopeChanges` (lines 2220-2241):
same logic as `addedDayOf`, also reporting the change source. -/
def addedEntryWithSource (startDay : ℤ) (chg : String → Option ℤ) (i : Issue) :
    Option (ℤ × String) :=
  let histAdded := if startDay ≤ i.fields.created then chg i.key else none
  match histAdded with
  | some d => if startDay < d then some (d, "sprint_changelog") else none
  | none =>
    if startDay < i.fields.created then some (i.fields.created, "created_after_start")
    else none

def mkAddedScopeItem (i : Issue) (d : ℤ) (src : String) : ScopeChangeItem where
  key := i.key
  summary := i.fields.summary
  assignee := strOrElse i.fields.assigneeDisplayName "Unassigned"
  priority := i.fields.priorityName
  status := i.fields.statusName
  changeType := "ADDED"
  changeDate := d
  changeSource := src
  originalEstimate := secondsToHours i.fields.timeoriginalestimate
  remainingEstimate := secondsToHours i.fields.timeestimate

/-- A removed entry (lines 2266-2281): changelog date when available, else
the current time, with the matching change source. -/
def mkRemovedScopeItem (env : JiraEnv) (r : Issue) : ScopeChangeItem where
  key := r.key
  summary := r.fields.summary
  assignee := strOrElse r.fields.assigneeDisplayName "Unassigned"
  priority := r.fields.priorityName
  status := some (strOrElse r.fields.statusName "Removed from sprint")
  changeType := "REMOVED"
  changeDate :=
    match env.removedDateOf r.key with
    | some d => d
    | none => env.now
  changeSource :=
    match env.removedDateOf r.key with
    | some _ => "sprint_changelog"
    | none => "jql_was_sprint"
  originalEstimate := secondsToHours r.fields.timeoriginalestimate
  remainingEstimate := secondsToHours r.fields.timeestimate

structure ScopeChangesData where
  added : List ScopeChangeItem
  removed : List ScopeChangeItem
  priorityChanged : List ScopeChangeItem
  totalAdded : ℕ
  totalRemoved : ℕ
  totalPriorityChanged : ℕ
  sprintName : String
  sprintStartDate : ℤ

/-- The `getScopeChanges` resolver (lines 2192-2303): changelog-attributed
added issues (sorted by status rank), removed issues from the
was-in-sprint scan, and an always-empty priorityChanged list. -/
def getScopeChanges (env : JiraEnv) (payload : BurndownPayload) : Tagged ScopeChangesData :=
  if !jsTruthyNat payload.boardId then .failure "Board ID is required"
  else
    match env.activeSprint with
    | none => .failure "No active sprint found"
    | some sprint =>
      match env.issuesResult with
      | .error e => .failure e
      | .ok fetched =>
        let allIssues :=
          if assigneeFilterActive payload.assignee then
            fetched.filter (fun i => i.fields.assigneeDisplayName == payload.assignee)
          else fetched
        let added := sortByStatusKey (fun it => it.status)
          (allIssues.filterMap (fun i =>
            (addedEntryWithSource sprint.startDate env.addedDateOf i).map
              (fun e => mkAddedScopeItem i e.1 e.2)))
        let removed := env.removedFromSprint.map (mkRemovedScopeItem env)
        .success
          { added := added, removed := removed, priorityChanged := []
            totalAdded := added.length, totalRemoved := removed.length
            totalPriorityChanged := 0
            sprintName := sprint.name, sprintStartDate := sprint.startDate }

/-! ### High-priority items (lines 2305-2359) -/

/-- `priorityOrder[p] || 3` (lines 2319, 2336-2337). -/
def priorityOrderOf (p : String) : ℕ :=
  if p = "Highest" then 1
  else if p = "High" then 2
  else if p = "Medium" then 3
  else if p = "Low" then 4
  else if p = "Lowest" then 5
  else 3

/-- One listed item (lines 2321-2330). -/
structure PriorityItem where
  key : String
  summary : String
  assignee : String
  priority : String
  status : Option String
  dueDate : Option ℤ
  originalEstimate : ℚ
  remainingEstimate : ℚ
  timeSpent : ℚ

def mkPriorityItem (i : Issue) : PriorityItem where
  key := i.key
  summary := i.fields.summary
  assignee := strOrElse i.fields.assigneeDisplayName "Unassigned"
  priority := strOrElse i.fields.priorityName "Medium"
  status := i.fields.statusName
  dueDate := i.fields.duedate
  originalEstimate := secondsToHours i.fields.timeoriginalestimate
  remainingEstimate := secondsToHours i.fields.timeestimate
  timeSpent := secondsToHours i.fields.timespent

structure HighPriorityData where
  items : List PriorityItem
  total : ℕ
  highestCount : ℕ
  highCount : ℕ
  mediumCount : ℕ
  lowCount : ℕ
  lowestCount : ℕ
  sprintName : String
  isExpanded : Bool

/-- The `getHighPriorityItems` resolver (lines 2305-2359): stable sort by
status rank then priority rank, top five unless expanded, plus per-priority
counts. -/
def getHighPriorityItems (env : JiraEnv) (payload : BurndownPayload) :
    Tagged HighPriorityData :=
  if !jsTruthyNat payload.boardId then .failure "Board ID is required"
  else
    match env.activeSprint with
    | none => .failure "No active sprint found"
    | some sprint =>
      match env.issuesResult with
      | .error e => .failure e
      | .ok fetched =>
        let issues :=
          if assigneeFilterActive payload.assignee then
            fetched.filter (fun i => i.fields.assigneeDisplayName == payload.assignee)
          else fetched
        let allItems := (issues.map mkPriorityItem).mergeSort (fun a b =>
          let sa := getStatusOrder a.status
          let sb := getStatusOrder b.status
          if sa != sb then sa < sb
          else priorityOrderOf a.priority ≤ priorityOrderOf b.priority)
        let displayItems := if payload.expand then allItems else allItems.take 5
        .success
          { items := displayItems, total := allItems.length
            highestCount := (allItems.filter (fun it => it.priority == "Highest")).length
            highCount := (allItems.filter (fun it => it.priority == "High")).length
            mediumCount := (allItems.filter (fun it => it.priority == "Medium")).length
            lowCount := (allItems.filter (fun it => it.priority == "Low")).length
            lowestCount := (allItems.filter (fun it => it.priority == "Lowest")).length
            sprintName := sprint.name, isExpanded := payload.expand }

/-! ### Release progress (lines 2361-2437) -/

/-- One issue row inside a release (lines 2399-2405). -/
structure ReleaseIssue where
  key : String
  summary : String
  status : Option String
  priority : Option String
  assignee : String
  isDone : Bool
  estimate : ℚ

/-- The per-version accumulator built by the `releaseMap` loop (lines
2376-2407). -/
structure ReleaseAgg where
  id : ℕ
  name : String
  description : String
  releaseDate : Option ℤ
  released : Bool
  totalIssues : ℕ
  doneIssues : ℕ
  totalEstimate : ℚ
  doneEstimate : ℚ
  issues : List ReleaseIssue

def newReleaseAgg (v : FixVersion) : ReleaseAgg where
  id := v.id
  name := v.name
  description := v.description.getD ""
  releaseDate := v.releaseDate
  released := v.released
  totalIssues := 0
  doneIssues := 0
  totalEstimate := 0
  doneEstimate := 0
  issues := []

/-- Fold one issue into a release accumulator (lines 2392-2405). -/
def addIssueToRelease (r : ReleaseAgg) (i : Issue) : ReleaseAgg :=
  let isDone := isDoneStatusName i.fields.statusName
  let estimate := secondsToHours i.fields.timeoriginalestimate
  { r with
    totalIssues := r.totalIssues + 1
    totalEstimate := r.totalEstimate + estimate
    doneIssues := if isDone then r.doneIssues + 1 else r.doneIssues
    doneEstimate := if isDone then r.doneEstimate + estimate else r.doneEstimate
    issues := r.issues ++
      [{ key := i.key, summary := i.fields.summary, status := i.fields.statusName
         priority := i.fields.priorityName
         assignee := strOrElse i.fields.assigneeDisplayName "Unassigned"
         isDone := isDone, estimate := estimate }] }

/-- The insertion-ordered `releaseMap` (a JS `Map` keyed by version id). -/
def upsertRelease (acc : List ReleaseAgg) (i : Issue) (v : FixVersion) : List ReleaseAgg :=
  if acc.any (fun r => r.id == v.id) then
    acc.map (fun r => if r.id == v.id then addIssueToRelease r i else r)
  else acc ++ [addIssueToRelease (newReleaseAgg v) i]

def releaseAggsOf (issues : List Issue) : List ReleaseAgg :=
  issues.foldl (fun acc i => i.fields.fixVersions.foldl (fun acc2 v => upsertRelease acc2 i v) acc) []

/-- A finalized release entry (lines 2409-2417). -/
structure ReleaseOut where
  id : ℕ
  name : String
  description : String
  releaseDate : Option ℤ
  released : Bool
  totalIssues : ℕ
  doneIssues : ℕ
  progress : ℤ
  totalEstimate : ℚ
  doneEstimate : ℚ
  issues : List ReleaseIssue

def finalizeRelease (r : ReleaseAgg) : ReleaseOut where
  id := r.id
  name := r.name
  description := r.description
  releaseDate := r.releaseDate
  released := r.released
  totalIssues := r.totalIssues
  doneIssues := r.doneIssues
  progress :=
    if 0 < r.totalIssues then jsRound ((r.doneIssues : ℚ) / (r.totalIssues : ℚ) * 100) else 0
  totalEstimate := round10 r.totalEstimate
  doneEstimate := round10 r.doneEstimate
  issues := sortByStatusKey (fun ri => ri.status) r.issues

/-- `new Date(9999-12-31)` as a day number, the missing-release-date
sentinel of the sort at lines 2421-2422. -/
def farFutureDay : ℤ := 2932896

def releaseDateKey : Option ℤ → ℤ
  | some d => d
  | none => farFutureDay

structure ReleaseData where
  releases : List ReleaseOut
  totalReleases : ℕ
  unversionedCount : ℕ
  sprintName : String

/-- The `getReleaseData` resolver (lines 2361-2437): per-fixVersion
aggregation, done-based progress percentages, unreleased-first then
earliest-release-date ordering, and the count of unversioned issues. -/
def getReleaseData (env : JiraEnv) (payload : BurndownPayload) : Tagged ReleaseData :=
  if !jsTruthyNat payload.boardId then .failure "Board ID is required"
  else
    match env.activeSprint with
    | none => .failure "No active sprint found"
    | some sprint =>
      match env.issuesResult with
      | .error e => .failure e
      | .ok fetched =>
        let issues :=
          if assigneeFilterActive payload.assignee then
            fetched.filter (fun i => i.fields.assigneeDisplayName == payload.assignee)
          else fetched
        let releases := ((releaseAggsOf issues).map finalizeRelease).mergeSort (fun a b =>
          if a.released != b.released then !a.released
          else releaseDateKey a.releaseDate ≤ releaseDateKey b.releaseDate)
        let unversionedCount := (issues.filter (fun i => i.fields.fixVersions.length == 0)).length
        .success
          { releases := releases, totalReleases := releases.length
            unversionedCount := unversionedCount, sprintName := sprint.name }

/-! ### Baseline storage transitions across endpoints (for the stability
invariant) -/

/-- One resolver invocation, viewed through its effect on the
`baseline-{sprintId}` storage slot.
* `burndown`: `getBurndownData` (lines 1758-2087).
* `scopeChanges`, `sprintHealth`, `atRisk`, `highPriority`, `releaseData`,
  `boards`, `config`, `saveCfg`: the current version's other resolvers, none
  of which reads or writes the baseline slot (lines 2106-2437; the
  config endpoints use `config-{gadgetId}` keys).
* `scopeChangesLegacy`: the first version's `getScopeChanges`
  (lines 816-821), which saves a freshly built baseline only when the slot
  is empty; `fresh` abstracts that build.
* `deleteBaselineOp`: the explicit delete endpoint (lines 2090-2103).
* `resetBaselineLegacy`: the first version's `resetBaseline`
  (lines 1126-1151), an unconditional user-invoked overwrite. -/
inductive SprintOp where
  | burndown (env : JiraEnv) (payload : BurndownPayload)
  | scopeChanges
  | sprintHealth
  | atRisk
  | highPriority
  | releaseData
  | boards
  | config
  | saveCfg
  | scopeChangesLegacy (fresh : Baseline)
  | deleteBaselineOp (env : JiraEnv) (payload : BurndownPayload)
  | resetBaselineLegacy (fresh : Baseline)

/-- The explicit reset/delete operations the stability invariant exempts. -/
def isResetLike : SprintOp → Bool
  | .deleteBaselineOp _ _ => true
  | .resetBaselineLegacy _ => true
  | _ => false

/-- The issue list an environment delivers (empty when the fetch throws;
the corruption check never runs in that case). -/
def issuesOf (env : JiraEnv) : List Issue :=
  match env.issuesResult with
  | .ok l => l
  | .error _ => []

/-- Would this operation trip the corruption auto-repair on baseline `b`? -/
def opCorrupts (b : Baseline) : SprintOp → Bool
  | .burndown env _ => isCorruptBaseline b (currentActiveCount (issuesOf env))
  | _ => false

/-- The `baseline-{sprintId}` slot after running one operation on a given
stored value. -/
def baselineStorageAfter (stored : Option Baseline) : SprintOp → Option Baseline
  | .burndown env payload => (getBurndownData { env with storedBaseline := stored } payload).2
  | .scopeChanges => stored
  | .sprintHealth => stored
  | .atRisk => stored
  | .highPriority => stored
  | .releaseData => stored
  | .boards => stored
  | .config => stored
  | .saveCfg => stored
  | .scopeChangesLegacy fresh =>
    (match stored with
     | some b => some b
     | none => some fresh)
  | .deleteBaselineOp env payload => (deleteBaseline { env with storedBaseline := stored } payload).2
  | .resetBaselineLegacy fresh => some fresh

/-! ### JSON response envelopes (for the error-handling contract) -/

inductive JsValue where
  | nul
  | boolean (b : Bool)
  | num (q : ℚ)
  | str (s : String)
  | arr (xs : List JsValue)
  | obj (fields : List (String × JsValue))

/-- Does a JS object value carry a given top-level field? -/
def JsValue.hasField (name : String) : JsValue → Bool
  | .obj fields => fields.any (fun f => f.1 == name)
  | _ => false

def encodeOptQ : Option ℚ → JsValue
  | none => .nul
  | some q => .num q

def encodeDataPoint (p : DataPoint) : JsValue :=
  .obj
    [("date", match p.day with | some d => .num (d : ℚ) | none => .str "start"),
     ("ideal", .num p.ideal),
     ("remaining", encodeOptQ p.remaining),
     ("totalRemaining", encodeOptQ p.totalRemaining),
     ("timeLogged", encodeOptQ p.timeLogged),
     ("dayLogged", encodeOptQ p.dayLogged),
     ("cumulativeLogged", encodeOptQ p.cumulativeLogged),
     ("added", .num p.added),
     ("removed", .num p.removed)]

def encodeBurndownData (d : BurndownData) : JsValue :=
  .obj
    [("dataPoints", .arr (d.dataPoints.map encodeDataPoint)),
     ("sprintName", .str d.sprintName),
     ("maxCapacity", .num d.maxCapacity),
     ("totalOriginalEstimate", .num d.totalOriginalEstimate),
     ("currentRemaining", .num d.currentRemaining),
     ("totalSpent", .num d.totalSpent),
     ("scopeAddedTotal", .num d.scopeAddedTotal),
     ("scopeRemovedTotal", .num d.scopeRemovedTotal),
     ("workingDays", .num (d.workingDays : ℚ)),
     ("teamSize", .num (d.teamSize : ℚ)),
     ("assignees", .arr (d.assignees.map JsValue.str)),
     ("addedIssuesCount", .num (d.addedIssuesCount : ℚ)),
     ("removedIssuesCount", .num (d.removedIssuesCount : ℚ)),
     ("baselineIssueCount", .num (d.baselineIssueCount : ℚ))]

def encodeHealthData (d : HealthData) : JsValue :=
  .obj
    [("counts", .obj
        [("under", .num (d.under : ℚ)), ("normal", .num (d.normal : ℚ)),
         ("good", .num (d.good : ℚ)), ("total", .num (d.total : ℚ))]),
     ("sprintName", .str d.sprintName)]

def encodeBoard (b : Board) : JsValue :=
  .obj
    [("id", .num (b.id : ℚ)), ("name", .str b.name),
     ("projectKey", match b.projectKey with | some p => .str p | none => .nul)]

/-- `{ success: false, error }`. -/
def envelopeErr (msg : String) : JsValue :=
  .obj [("success", .boolean false), ("error", .str msg)]

/-- The JSON value `getBurndownData` resolves with (line 2050 / 2085). -/
def getBurndownDataResponse (env : JiraEnv) (payload : BurndownPayload) : JsValue :=
  match (getBurndownData env payload).1 with
  | .success d => .obj [("success", .boolean true), ("data", encodeBurndownData d)]
  | .failure e => envelopeErr e

/-- The JSON value `getSprintHealth` resolves with (lines 2130-2135). -/
def getSprintHealthResponse (env : JiraEnv) (payload : BurndownPayload) : JsValue :=
  match getSprintHealth env payload with
  | .success d => .obj [("success", .boolean true), ("data", encodeHealthData d)]
  | .failure e => envelopeErr e

/-- The JSON value `getBoards` resolves with (lines 1683-1688). -/
def getBoardsResponse (env : JiraEnv) : JsValue :=
  match getBoards env with
  | .success bs => .obj [("success", .boolean true), ("boards", .arr (bs.map encodeBoard))]
  | .failure e => envelopeErr e

/-- The JSON value `saveConfig` resolves with (lines 1705-1707). -/
def saveConfigResponse (env : JiraEnv) : JsValue :=
  match saveConfig env with
  | .success _ => .obj [("success", .boolean true)]
  | .failure e => envelopeErr e

/-- The JSON value `deleteBaseline` resolves with (lines 2099-2101). -/
def deleteBaselineResponse (env : JiraEnv) (payload : BurndownPayload) : JsValue :=
  match (deleteBaseline env payload).1 with
  | .success msg => .obj [("success", .boolean true), ("message", .str msg)]
  | .failure e => envelopeErr e

def encodeOptStr : Option String → JsValue
  | none => .nul
  | some s => .str s

def encodeOptInt : Option ℤ → JsValue
  | none => .nul
  | some d => .num (d : ℚ)

def encodeRiskReason : RiskReason → JsValue
  | .timeBoxExceeded => .str "TIME_BOX_EXCEEDED"
  | .deadlineExceeded => .str "DEADLINE_EXCEEDED"

def encodeAtRiskItem (it : AtRiskItem) : JsValue :=
  .obj
    [("key", .str it.key), ("summary", .str it.summary), ("assignee", .str it.assignee),
     ("priority", .str it.priority), ("status", .str it.status),
     ("originalEstimate", .num it.originalEstimate),
     ("remainingEstimate", .num it.remainingEstimate),
     ("riskReason", encodeRiskReason it.riskReason)]

def encodeAtRiskData (d : AtRiskData) : JsValue :=
  .obj
    [("items", .arr (d.items.map encodeAtRiskItem)), ("total", .num (d.total : ℚ)),
     ("sprintName", .str d.sprintName)]

/-- The JSON value `getAtRiskItems` resolves with (line 2186). -/
def getAtRiskItemsResponse (env : JiraEnv) (payload : BurndownPayload) : JsValue :=
  match getAtRiskItems env payload with
  | .success d => .obj [("success", .boolean true), ("data", encodeAtRiskData d)]
  | .failure e => envelopeErr e

def encodeScopeChangeItem (it : ScopeChangeItem) : JsValue :=
  .obj
    [("key", .str it.key), ("summary", .str it.summary), ("assignee", .str it.assignee),
     ("priority", encodeOptStr it.priority), ("status", encodeOptStr it.status),
     ("changeType", .str it.changeType), ("changeDate", .num (it.changeDate : ℚ)),
     ("changeSource", .str it.changeSource),
     ("originalEstimate", .num it.originalEstimate),
     ("remainingEstimate", .num it.remainingEstimate)]

def encodeScopeChangesData (d : ScopeChangesData) : JsValue :=
  .obj
    [("added", .arr (d.added.map encodeScopeChangeItem)),
     ("removed", .arr (d.removed.map encodeScopeChangeItem)),
     ("priorityChanged", .arr (d.priorityChanged.map encodeScopeChangeItem)),
     ("totalAdded", .num (d.totalAdded : ℚ)), ("totalRemoved", .num (d.totalRemoved : ℚ)),
     ("totalPriorityChanged", .num (d.totalPriorityChanged : ℚ)),
     ("sprintName", .str d.sprintName), ("sprintStartDate", .num (d.sprintStartDate : ℚ))]

/-- The JSON value `getScopeChanges` resolves with (lines 2287-2299). -/
def getScopeChangesResponse (env : JiraEnv) (payload : BurndownPayload) : JsValue :=
  match getScopeChanges env payload with
  | .success d => .obj [("success", .boolean true), ("data", encodeScopeChangesData d)]
  | .failure e => envelopeErr e

def encodePriorityItem (it : PriorityItem) : JsValue :=
  .obj
    [("key", .str it.key), ("summary", .str it.summary), ("assignee", .str it.assignee),
     ("priority", .str it.priority), ("status", encodeOptStr it.status),
     ("dueDate", encodeOptInt it.dueDate),
     ("originalEstimate", .num it.originalEstimate),
     ("remainingEstimate", .num it.remainingEstimate), ("timeSpent", .num it.timeSpent)]

def encodeHighPriorityData (d : HighPriorityData) : JsValue :=
  .obj
    [("items", .arr (d.items.map encodePriorityItem)), ("total", .num (d.total : ℚ)),
     ("highestCount", .num (d.highestCount : ℚ)), ("highCount", .num (d.highCount : ℚ)),
     ("mediumCount", .num (d.mediumCount : ℚ)), ("lowCount", .num (d.lowCount : ℚ)),
     ("lowestCount", .num (d.lowestCount : ℚ)), ("sprintName", .str d.sprintName),
     ("isExpanded", .boolean d.isExpanded)]

/-- The JSON value `getHighPriorityItems` resolves with (lines 2343-2355). -/
def getHighPriorityItemsResponse (env : JiraEnv) (payload : BurndownPayload) : JsValue :=
  match getHighPriorityItems env payload with
  | .success d => .obj [("success", .boolean true), ("data", encodeHighPriorityData d)]
  | .failure e => envelopeErr e

def encodeReleaseIssue (it : ReleaseIssue) : JsValue :=
  .obj
    [("key", .str it.key), ("summary", .str it.summary), ("status", encodeOptStr it.status),
     ("priority", encodeOptStr it.priority), ("assignee", .str it.assignee),
     ("isDone", .boolean it.isDone), ("estimate", .num it.estimate)]

def encodeReleaseOut (r : ReleaseOut) : JsValue :=
  .obj
    [("id", .num (r.id : ℚ)), ("name", .str r.name), ("description", .str r.description),
     ("releaseDate", encodeOptInt r.releaseDate), ("released", .boolean r.released),
     ("totalIssues", .num (r.totalIssues : ℚ)), ("doneIssues", .num (r.doneIssues : ℚ)),
     ("progress", .num (r.progress : ℚ)), ("totalEstimate", .num r.totalEstimate),
     ("doneEstimate", .num r.doneEstimate),
     ("issues", .arr (r.issues.map encodeReleaseIssue))]

def encodeReleaseData (d : ReleaseData) : JsValue :=
  .obj
    [("releases", .arr (d.releases.map encodeReleaseOut)),
     ("totalReleases", .num (d.totalReleases : ℚ)),
     ("unversionedCount", .num (d.unversionedCount : ℚ)),
     ("sprintName", .str d.sprintName)]

/-- The JSON value `getReleaseData` resolves with (lines 2430-2433). -/
def getReleaseDataResponse (env : JiraEnv) (payload : BurndownPayload) : JsValue :=
  match getReleaseData env payload with
  | .success d => .obj [("success", .boolean true), ("data", encodeReleaseData d)]
  | .failure e => envelopeErr e

/-- The JSON value `getConfig` resolves with (lines 1694-1697): the bare
configuration object, with no success/error envelope. -/
def getConfigResponse (env : JiraEnv) : JsValue :=
  let c := getConfig env
  .obj
    [("boardId", match c.boardId with | some b => .num (b : ℚ) | none => .nul),
     ("teamSize", .num (c.teamSize : ℚ)),
     ("workingDays", .num (c.workingDays : ℚ))]

/-! ## Arithmetic helper lemmas -/

theorem jsRound_intCast (n : ℤ) : jsRound (n : ℚ) = n := by
  have h : ⌊(1 / 2 : ℚ)⌋ = 0 := by
    rw [Int.floor_eq_zero_iff]
    constructor <;> norm_num
  unfold jsRound
  rw [Int.floor_int_add, h, add_zero]

theorem round10_intCast (n : ℤ) : round10 (n : ℚ) = (n : ℚ) := by
  unfold round10
  have h : ((n : ℚ) * 10) = ((n * 10 : ℤ) : ℚ) := by push_cast; ring
  rw [h, jsRound_intCast]
  push_cast
  field_simp

theorem round10_natCast (n : ℕ) : round10 (n : ℚ) = (n : ℚ) := by
  have h : ((n : ℚ)) = ((n : ℤ) : ℚ) := by push_cast; ring
  rw [h, round10_intCast]

theorem round10_tenth (k : ℤ) : round10 ((k : ℚ) / 10) = (k : ℚ) / 10 := by
  unfold round10
  have h : ((k : ℚ) / 10 * 10) = ((k : ℤ) : ℚ) := by field_simp
  rw [h, jsRound_intCast]

/-- Every value `secondsToHours` produces is a non-negative multiple of one
tenth. -/
theorem secondsToHours_tenth (x : Option ℕ) :
    ∃ k : ℤ, secondsToHours x = (k : ℚ) / 10 ∧ 0 ≤ k := by
  match x with
  | none => exact ⟨0, by simp [secondsToHours], le_refl 0⟩
  | some n =>
    by_cases h : n = 0
    · exact ⟨0, by simp [secondsToHours, h], le_refl 0⟩
    · refine ⟨jsRound ((n : ℚ) / 3600 * 10), ?_, ?_⟩
      · simp [secondsToHours, h, round10]
      · unfold jsRound
        rw [Int.le_floor]
        positivity

theorem secondsToHours_nonneg (x : Option ℕ) : 0 ≤ secondsToHours x := by
  obtain ⟨k, hk, hk0⟩ := secondsToHours_tenth x
  rw [hk]
  positivity

/-- Two one-tenth multiples are equal as soon as they differ by less than
one tenth. -/
theorem tenth_eq_of_abs_lt {a b : ℤ} (h : |(a : ℚ) / 10 - (b : ℚ) / 10| < 1 / 10) :
    (a : ℚ) / 10 = (b : ℚ) / 10 := by
  have h1 : (a : ℚ) / 10 - (b : ℚ) / 10 = ((a - b : ℤ) : ℚ) / 10 := by push_cast; ring
  rw [h1] at h
  have h2 : |((a - b : ℤ) : ℚ)| < 1 := by
    rw [abs_div] at h
    have : |(10 : ℚ)| = 10 := by norm_num
    rw [this, div_lt_div_iff₀ (by norm_num) (by norm_num)] at h
    linarith
  have h3 : a - b = 0 := by
    rw [← Int.cast_abs] at h2
    have h4 : |a - b| < 1 := by exact_mod_cast h2
    have h5 := abs_lt.mp h4
    omega
  have : a = b := by omega
  rw [this]

/-! ## Claim theorems -/

/-- Concrete working set for the aggregation scenario: a parent with two
3-hour subtasks owned by different assignees, filtered down to the one
subtask owned by assignee x. -/
def demoSubA : Issue :=
  { key := "A-1"
    fields := { issuetypeSubtask := true, parentKey := some "P-1"
                assigneeDisplayName := some "x", timeestimate := some 10800 } }

def demoSubB : Issue :=
  { key := "A-2"
    fields := { issuetypeSubtask := true, parentKey := some "P-1"
                assigneeDisplayName := some "y", timeestimate := some 10800 } }

def demoParent : Issue :=
  { key := "P-1"
    fields := { subtasksCount := 2, assigneeDisplayName := some "x"
                timeestimate := some 21600 } }

/-- A subtask-typed issue carrying no parent reference. -/
def demoOrphanSubtask : Issue :=
  { key := "O-1"
    fields := { issuetypeSubtask := true, timeestimate := some 18000 } }

/-- A subtask carrying a parent reference never contributes on its own. -/
theorem contribRemaining_subtask (issues : List Issue) (i : Issue) (hmem : i ∈ issues)
    (hsub : isSubtaskIssue i = true) (hpar : (truthyStr i.fields.parentKey).isSome = true) :
    contribRemaining issues i = 0 := by
  have hfilter : i ∈ issues.filter
      (fun s => isSubtaskIssue s && (truthyStr s.fields.parentKey).isSome) := by
    rw [List.mem_filter]
    exact ⟨hmem, by rw [hsub, hpar]; rfl⟩
  have hkey : i.key ∈ (buildSubtaskMap issues).subtaskKeys :=
    List.mem_map_of_mem (fun s => s.key) hfilter
  have hc : (buildSubtaskMap issues).subtaskKeys.contains i.key = true :=
    List.elem_eq_true_of_mem hkey
  simp only [contribRemaining, hc, if_true]

/-- A parent issue contributes the sum of its present subtasks' remaining
hours (0 when none are present in the working set), never its own raw
field. -/
theorem contribRemaining_parent (issues : List Issue) (i : Issue)
    (hs : (buildSubtaskMap issues).subtaskKeys.contains i.key = false)
    (hp : (buildSubtaskMap issues).parentKeys.contains i.key = true) :
    contribRemaining issues i =
      (((buildSubtaskMap issues).subtasksByParent i.key).map
        (fun s => secondsToHours s.fields.timeestimate)).sum := by
  simp only [contribRemaining, hs, hp, if_true, Bool.false_eq_true, if_false]
  by_cases hlen : ((buildSubtaskMap issues).subtasksByParent i.key).length > 0
  · simp [hlen]
  · have hnil : (buildSubtaskMap issues).subtasksByParent i.key = [] :=
      List.length_eq_zero.mp (Nat.eq_zero_of_not_pos hlen)
    simp [hlen, hnil]

/-- A plain issue contributes its own remaining hours. -/
theorem contribRemaining_plain (issues : List Issue) (i : Issue)
    (hs : (buildSubtaskMap issues).subtaskKeys.contains i.key = false)
    (hp : (buildSubtaskMap issues).parentKeys.contains i.key = false) :
    contribRemaining issues i = secondsToHours i.fields.timeestimate := by
  simp only [contribRemaining, hs, hp, Bool.false_eq_true, if_false]

theorem secondsToHours_10800 : secondsToHours (some 10800) = 3 := by
  simp only [secondsToHours, round10, jsRound]
  norm_num

theorem secondsToHours_18000 : secondsToHours (some 18000) = 5 := by
  simp only [secondsToHours, round10, jsRound]
  norm_num

/-- C1 (as stated) is refuted on a degenerate working set: a lone
subtask-typed issue with no parent reference.  The claim says a subtask
contributes nothing on its own, so the effective remaining total of this
one-item working set would be 0; `computeEffectiveRemaining` counts the
item's own 5 remaining hours instead, because `buildSubtaskMap` only
registers subtasks that carry a parent key. -/
theorem c1_counterexample :
    isSubtaskIssue demoOrphanSubtask = true ∧
      computeEffectiveRemaining [demoOrphanSubtask] = 5 ∧ (5 : ℚ) ≠ 0 := by
  refine ⟨by decide, ?_, by norm_num⟩
  have h := contribRemaining_plain [demoOrphanSubtask] demoOrphanSubtask
    (by decide) (by decide)
  have hsum : computeEffectiveRemaining [demoOrphanSubtask]
      = contribRemaining [demoOrphanSubtask] demoOrphanSubtask := by
    simp only [computeEffectiveRemaining, List.map_cons, List.map_nil, List.sum_cons,
      List.sum_nil, add_zero]
  rw [hsum, h, show demoOrphanSubtask.fields.timeestimate = some 18000 from rfl]
  exact secondsToHours_18000

/-- C1 (amended): over any working set, an issue that is a subtask *with a
parent reference* contributes nothing on its own; an issue registered as a
parent (and not as a subtask) contributes exactly the sum of the remaining
hours of its subtasks present in the working set — never its own raw
`timeestimate` — which is 0 when none are present; any other issue
contributes its own remaining hours; and the effective remaining total is
the sum of these contributions.  In the concrete scenario, the parent with
two 3-hour subtasks filtered to the assignee owning one of them yields 3
effective remaining hours, not 6 and not the parent's raw 6-hour field. -/
theorem c1_effective_remaining_aggregation :
    (∀ (issues : List Issue) (i : Issue), i ∈ issues → isSubtaskIssue i = true →
      (truthyStr i.fields.parentKey).isSome = true → contribRemaining issues i = 0)
  ∧ (∀ (issues : List Issue) (i : Issue),
      (buildSubtaskMap issues).subtaskKeys.contains i.key = false →
      (buildSubtaskMap issues).parentKeys.contains i.key = true →
      contribRemaining issues i =
        (((buildSubtaskMap issues).subtasksByParent i.key).map
          (fun s => secondsToHours s.fields.timeestimate)).sum)
  ∧ (∀ (issues : List Issue) (i : Issue),
      (buildSubtaskMap issues).subtaskKeys.contains i.key = false →
      (buildSubtaskMap issues).parentKeys.contains i.key = false →
      contribRemaining issues i = secondsToHours i.fields.timeestimate)
  ∧ (∀ issues : List Issue,
      computeEffectiveRemaining issues = (issues.map (contribRemaining issues)).sum)
  ∧ computeEffectiveRemaining [demoParent, demoSubA] = 3 := by
  refine ⟨contribRemaining_subtask, contribRemaining_parent, contribRemaining_plain,
    fun issues => rfl, ?_⟩
  have hA : contribRemaining [demoParent, demoSubA] demoSubA = 0 :=
    contribRemaining_subtask _ _ (by decide) (by decide) (by decide)
  have hP := contribRemaining_parent [demoParent, demoSubA] demoParent
    (by decide) (by decide)
  have hsubs : (buildSubtaskMap [demoParent, demoSubA]).subtasksByParent demoParent.key
      = [demoSubA] := by decide
  rw [hsubs] at hP
  have hsum : computeEffectiveRemaining [demoParent, demoSubA]
      = contribRemaining [demoParent, demoSubA] demoParent
        + contribRemaining [demoParent, demoSubA] demoSubA := by
    simp only [computeEffectiveRemaining, List.map_cons, List.map_nil, List.sum_cons,
      List.sum_nil, add_zero]
  rw [hsum, hA, hP]
  have hone : (List.map (fun s => secondsToHours s.fields.timeestimate) [demoSubA]).sum
      = secondsToHours (some 10800) := by
    simp only [List.map_cons, List.map_nil, List.sum_cons, List.sum_nil, add_zero]
    rfl
  rw [hone, secondsToHours_10800]
  norm_num

/-- Witness: the subtask conjunct of the amended C1 theorem applied to the
concrete filtered working set. -/
theorem c1_witness :
    (demoSubA ∈ [demoParent, demoSubA] ∧ isSubtaskIssue demoSubA = true ∧
        (truthyStr demoSubA.fields.parentKey).isSome = true) ∧
      contribRemaining [demoParent, demoSubA] demoSubA = 0 := by
  refine ⟨⟨by decide, by decide, by decide⟩, ?_⟩
  exact c1_effective_remaining_aggregation.1 [demoParent, demoSubA] demoSubA
    (by decide) (by decide) (by decide)

/-! ## Series-loop lemmas -/

theorem stepSt_wdc (cfg : SeriesCfg) (st : LoopSt) (d : ℤ) :
    (stepSt cfg st d).wdc =
      if isWorkingDayB d && decide (cfg.startDay < d) then st.wdc + 1 else st.wdc := by
  unfold stepSt
  by_cases h : d ≤ cfg.today <;> simp [h]

theorem stepSt_running_past (cfg : SeriesCfg) (st : LoopSt) (d : ℤ) (h : d ≤ cfg.today) :
    (stepSt cfg st d).running =
      st.running - cfg.loggedOn d + cfg.addedOn d - cfg.removedOn d := by
  unfold stepSt
  simp [h]

theorem stepSt_cum_past (cfg : SeriesCfg) (st : LoopSt) (d : ℤ) (h : d ≤ cfg.today) :
    (stepSt cfg st d).cum = st.cum + cfg.loggedOn d := by
  unfold stepSt
  simp [h]

theorem runDays_getElem (cfg : SeriesCfg) :
    ∀ (k n : ℕ) (a : ℤ) (st : LoopSt),
      (runDays cfg st (dayRange a n))[k]? =
        if k < n then some (mkPoint cfg (iterSt cfg st a (k + 1)) (a + (k : ℤ))) else none := by
  intro k
  induction k with
  | zero =>
    intro n a st
    cases n with
    | zero => simp [dayRange, runDays]
    | succ m =>
      have h1 : iterSt cfg st a 1 = stepSt cfg st a := rfl
      simp [dayRange, runDays, h1]
  | succ k ih =>
    intro n a st
    cases n with
    | zero => simp [dayRange, runDays]
    | succ m =>
      have hcons : (runDays cfg st (dayRange a (m + 1)))[k + 1]? =
          (runDays cfg (stepSt cfg st a) (dayRange (a + 1) m))[k]? := by
        simp [dayRange, runDays]
      rw [hcons, ih m (a + 1) (stepSt cfg st a)]
      have hit : iterSt cfg (stepSt cfg st a) (a + 1) (k + 1) = iterSt cfg st a (k + 2) := rfl
      have hday : (a + 1) + (k : ℤ) = a + ((k + 1 : ℕ) : ℤ) := by push_cast; ring
      by_cases hkm : k < m
      · rw [if_pos hkm, if_pos (Nat.succ_lt_succ hkm), hit, hday]
      · rw [if_neg hkm, if_neg (fun h => hkm (Nat.lt_of_succ_lt_succ h))]

theorem buildSeries_getElem_zero (cfg : SeriesCfg) :
    (buildSeries cfg)[0]? = some (startPoint cfg) := by
  simp [buildSeries]

theorem wdCount_succ (cfg : SeriesCfg) (a : ℤ) (k : ℕ) :
    wdCount cfg a (k + 1) =
      (if isWorkingDayB a && decide (cfg.startDay < a) then 1 else 0) + wdCount cfg (a + 1) k :=
  rfl

theorem deltaR_front (cfg : SeriesCfg) (a : ℤ) (k : ℕ) :
    deltaR cfg a (k + 1) =
      (cfg.addedOn a - cfg.removedOn a - cfg.loggedOn a) + deltaR cfg (a + 1) k := rfl

theorem deltaL_front (cfg : SeriesCfg) (a : ℤ) (k : ℕ) :
    deltaL cfg a (k + 1) = cfg.loggedOn a + deltaL cfg (a + 1) k := rfl

theorem buildSeries_getElem_succ (cfg : SeriesCfg) (k : ℕ) :
    (buildSeries cfg)[k + 1]? =
      if k < numDays cfg then
        some (mkPoint cfg (iterSt cfg (initSt cfg) cfg.startDay (k + 1))
          (cfg.startDay + (k : ℤ)))
      else none := by
  have h : (buildSeries cfg)[k + 1]? =
      (runDays cfg (initSt cfg) (dayRange cfg.startDay (numDays cfg)))[k]? := by
    simp [buildSeries]
  rw [h, runDays_getElem]

theorem iterSt_wdc (cfg : SeriesCfg) :
    ∀ (k : ℕ) (a : ℤ) (st : LoopSt), (iterSt cfg st a k).wdc = st.wdc + wdCount cfg a k := by
  intro k
  induction k with
  | zero => intro a st; simp [iterSt, wdCount]
  | succ k ih =>
    intro a st
    have h1 : iterSt cfg st a (k + 1) = iterSt cfg (stepSt cfg st a) (a + 1) k := rfl
    rw [h1, ih (a + 1) (stepSt cfg st a), stepSt_wdc, wdCount_succ]
    by_cases hc : isWorkingDayB a && decide (cfg.startDay < a)
    · rw [if_pos hc, if_pos hc]; omega
    · rw [if_neg hc, if_neg hc]; omega

theorem iterSt_running_past (cfg : SeriesCfg) :
    ∀ (k : ℕ) (a : ℤ) (st : LoopSt), a + (k : ℤ) ≤ cfg.today + 1 →
      (iterSt cfg st a k).running = st.running + deltaR cfg a k := by
  intro k
  induction k with
  | zero => intro a st _; simp [iterSt, deltaR]
  | succ k ih =>
    intro a st h
    have ha : a ≤ cfg.today := by
      have : a + ((k + 1 : ℕ) : ℤ) = a + (k : ℤ) + 1 := by push_cast; ring
      rw [this] at h
      omega
    have h2 : (a + 1) + (k : ℤ) ≤ cfg.today + 1 := by
      have : a + ((k + 1 : ℕ) : ℤ) = (a + 1) + (k : ℤ) := by push_cast; ring
      rw [this] at h
      exact h
    have h1 : iterSt cfg st a (k + 1) = iterSt cfg (stepSt cfg st a) (a + 1) k := rfl
    rw [h1, ih (a + 1) (stepSt cfg st a) h2, stepSt_running_past cfg st a ha, deltaR_front]
    ring

theorem iterSt_cum_past (cfg : SeriesCfg) :
    ∀ (k : ℕ) (a : ℤ) (st : LoopSt), a + (k : ℤ) ≤ cfg.today + 1 →
      (iterSt cfg st a k).cum = st.cum + deltaL cfg a k := by
  intro k
  induction k with
  | zero => intro a st _; simp [iterSt, deltaL]
  | succ k ih =>
    intro a st h
    have ha : a ≤ cfg.today := by
      have : a + ((k + 1 : ℕ) : ℤ) = a + (k : ℤ) + 1 := by push_cast; ring
      rw [this] at h
      omega
    have h2 : (a + 1) + (k : ℤ) ≤ cfg.today + 1 := by
      have : a + ((k + 1 : ℕ) : ℤ) = (a + 1) + (k : ℤ) := by push_cast; ring
      rw [this] at h
      exact h
    have h1 : iterSt cfg st a (k + 1) = iterSt cfg (stepSt cfg st a) (a + 1) k := rfl
    rw [h1, ih (a + 1) (stepSt cfg st a) h2, stepSt_cum_past cfg st a ha, deltaL_front]
    ring

theorem deltaR_succ (cfg : SeriesCfg) :
    ∀ (k : ℕ) (a : ℤ), deltaR cfg a (k + 1) =
      deltaR cfg a k +
        (cfg.addedOn (a + (k : ℤ)) - cfg.removedOn (a + (k : ℤ)) - cfg.loggedOn (a + (k : ℤ))) := by
  intro k
  induction k with
  | zero =>
    intro a
    simp only [deltaR]
    push_cast
    ring_nf
  | succ k ih =>
    intro a
    have hc : (a + 1) + (k : ℤ) = a + ((k + 1 : ℕ) : ℤ) := by push_cast; ring
    rw [deltaR_front cfg a (k + 1), ih (a + 1), hc, deltaR_front cfg a k]
    ring

theorem remAccum_eq_deltaR (cfg : SeriesCfg) :
    ∀ k : ℕ, remAccum cfg k = cfg.totalOE + deltaR cfg cfg.startDay k := by
  intro k
  induction k with
  | zero => simp [remAccum, deltaR]
  | succ k ih =>
    have h1 : remAccum cfg (k + 1) =
        remAccum cfg k - cfg.loggedOn (cfg.startDay + (k : ℤ))
          + cfg.addedOn (cfg.startDay + (k : ℤ)) - cfg.removedOn (cfg.startDay + (k : ℤ)) := rfl
    rw [h1, ih, deltaR_succ]
    ring

theorem dayRange_concat (a : ℤ) :
    ∀ k : ℕ, dayRange a (k + 1) = dayRange a k ++ [a + (k : ℤ)] := by
  intro k
  induction k generalizing a with
  | zero => simp [dayRange]
  | succ k ih =>
    have h1 : dayRange a (k + 2) = a :: dayRange (a + 1) (k + 1) := rfl
    have h2 : dayRange a (k + 1) = a :: dayRange (a + 1) k := rfl
    rw [h1, ih (a + 1), h2]
    have : (a + 1) + (k : ℤ) = a + ((k + 1 : ℕ) : ℤ) := by push_cast; ring
    rw [this]
    rfl

theorem elapsedWD_succ (start : ℤ) (k : ℕ) :
    elapsedWD start (k + 1) =
      elapsedWD start k + (if isWorkingDayB (start + 1 + (k : ℤ)) then 1 else 0) := by
  unfold elapsedWD
  rw [dayRange_concat, List.filter_append, List.length_append]
  by_cases h : isWorkingDayB (start + 1 + (k : ℤ)) <;> simp [h]

theorem elapsedWD_mono (start : ℤ) {k₁ k₂ : ℕ} (h : k₁ ≤ k₂) :
    elapsedWD start k₁ ≤ elapsedWD start k₂ := by
  induction k₂ with
  | zero =>
    have : k₁ = 0 := by omega
    rw [this]
  | succ m ih =>
    rcases Nat.lt_or_ge k₁ (m + 1) with hlt | hge
    · have h1 := ih (by omega)
      rw [elapsedWD_succ]
      by_cases hw : isWorkingDayB (start + 1 + (m : ℤ)) <;> simp [hw] <;> omega
    · have : k₁ = m + 1 := by omega
      rw [this]

theorem wdCount_of_lt (cfg : SeriesCfg) :
    ∀ (k : ℕ) (a : ℤ), cfg.startDay < a →
      wdCount cfg a k = ((dayRange a k).filter isWorkingDayB).length := by
  intro k
  induction k with
  | zero => intro a _; simp [wdCount, dayRange]
  | succ k ih =>
    intro a ha
    have h1 : wdCount cfg a (k + 1) =
        (if isWorkingDayB a && decide (cfg.startDay < a) then 1 else 0) + wdCount cfg (a + 1) k :=
      rfl
    have h2 : dayRange a (k + 1) = a :: dayRange (a + 1) k := rfl
    rw [h1, h2, ih (a + 1) (by omega)]
    by_cases hw : isWorkingDayB a
    · simp [hw, ha]
      omega
    · simp [hw]

/-- After `k+1` loop iterations starting at the sprint start, the
working-day counter equals the working days elapsed since sprint start at
day `start + k`. -/
theorem wdCount_from_start (cfg : SeriesCfg) (k : ℕ) :
    wdCount cfg cfg.startDay (k + 1) = elapsedWD cfg.startDay k := by
  have h1 : wdCount cfg cfg.startDay (k + 1) =
      (if isWorkingDayB cfg.startDay && decide (cfg.startDay < cfg.startDay) then 1 else 0)
        + wdCount cfg (cfg.startDay + 1) k := rfl
  rw [h1, wdCount_of_lt cfg k (cfg.startDay + 1) (by omega)]
  simp [elapsedWD]

theorem dayRange_length (a : ℤ) : ∀ n : ℕ, (dayRange a n).length = n := by
  intro n
  induction n generalizing a with
  | zero => rfl
  | succ m ih =>
    have h : dayRange a (m + 1) = a :: dayRange (a + 1) m := rfl
    rw [h, List.length_cons, ih (a + 1)]

theorem runDays_length (cfg : SeriesCfg) :
    ∀ (l : List ℤ) (st : LoopSt), (runDays cfg st l).length = l.length := by
  intro l
  induction l with
  | nil => intro st; rfl
  | cons d rest ih =>
    intro st
    have h : runDays cfg st (d :: rest) =
        mkPoint cfg (stepSt cfg st d) d :: runDays cfg (stepSt cfg st d) rest := rfl
    rw [h, List.length_cons, List.length_cons, ih (stepSt cfg st d)]

theorem buildSeries_length (cfg : SeriesCfg) :
    (buildSeries cfg).length = numDays cfg + 1 := by
  unfold buildSeries
  rw [List.length_cons, runDays_length, dayRange_length]

/-- The ideal value emitted for the `k`-th sprint day, in terms of the
working days elapsed since sprint start. -/
theorem buildSeries_ideal_formula (cfg : SeriesCfg) (k : ℕ) (hk : k < numDays cfg) :
    ((buildSeries cfg)[k + 1]?).map (fun p => p.ideal)
      = some (round10 (max 0
          (cfg.maxCap - dailyDecrease cfg * (elapsedWD cfg.startDay k : ℚ)))) := by
  rw [buildSeries_getElem_succ, if_pos hk]
  have hwdc : (iterSt cfg (initSt cfg) cfg.startDay (k + 1)).wdc = elapsedWD cfg.startDay k := by
    rw [iterSt_wdc, wdCount_from_start]
    simp [initSt]
  simp only [Option.map_some, mkPoint]
  rw [hwdc]
  rfl

/-- C2: the remaining line of the generated series is a forward
accumulation.  `remAccum` is the spec's recurrence — it starts at
`totalOriginalEstimateHours` and subtracts the day's logged hours while
adding the day's scope delta — and on every emitted day up to and
including today the series' accumulated remaining value (the
`totalRemaining` field; the plotted `remaining` field is the same value
minus the same day's scope-added hours, re-added visually by the stacked
added bar, per the comment at source lines 1969-1972) equals exactly this
accumulation rounded to one decimal, not a per-day snapshot of current
estimates.  The synthetic day-0 start point carries the rounded total
original estimate, which is the estimate itself whenever it is a tenth
multiple, as every `secondsToHours` sum is. -/
theorem c2_remaining_forward_accumulation (cfg : SeriesCfg) :
    (((buildSeries cfg)[0]?).map (fun p => p.remaining) = some (some (round10 cfg.totalOE)))
  ∧ (∀ z : ℤ, cfg.totalOE = (z : ℚ) / 10 → round10 cfg.totalOE = cfg.totalOE)
  ∧ remAccum cfg 0 = cfg.totalOE
  ∧ (∀ k : ℕ, remAccum cfg (k + 1) =
      remAccum cfg k - cfg.loggedOn (cfg.startDay + (k : ℤ))
        + cfg.addedOn (cfg.startDay + (k : ℤ)) - cfg.removedOn (cfg.startDay + (k : ℤ)))
  ∧ (∀ k : ℕ, k < numDays cfg → cfg.startDay + (k : ℤ) ≤ cfg.today →
      ((buildSeries cfg)[k + 1]?).bind (fun p => p.totalRemaining)
          = some (round10 (remAccum cfg (k + 1)))
      ∧ ((buildSeries cfg)[k + 1]?).bind (fun p => p.remaining)
          = some (round10 (remAccum cfg (k + 1) - cfg.addedOn (cfg.startDay + (k : ℤ))))) := by
  refine ⟨?_, ?_, rfl, fun k => rfl, ?_⟩
  · rw [buildSeries_getElem_zero]
    rfl
  · intro z hz
    rw [hz, round10_tenth]
  · intro k hk hpast
    have hrun : (iterSt cfg (initSt cfg) cfg.startDay (k + 1)).running = remAccum cfg (k + 1) := by
      have hbound : cfg.startDay + ((k + 1 : ℕ) : ℤ) ≤ cfg.today + 1 := by
        push_cast
        omega
      rw [iterSt_running_past cfg (k + 1) cfg.startDay (initSt cfg) hbound,
        remAccum_eq_deltaR]
      simp [initSt]
    rw [buildSeries_getElem_succ, if_pos hk]
    simp only [Option.bind_some, mkPoint, hrun]
    rw [if_pos hpast, if_pos hpast]
    exact ⟨rfl, rfl⟩

/-- Series inputs for the forward-accumulation witness: a two-week sprint
with 4 logged hours on day 5 and 2 scope-added hours on day 6. -/
def c2cfg : SeriesCfg where
  startDay := 4
  endDay := 15
  today := 20
  maxCap := 400
  workingDays := 10
  totalOE := 60
  loggedOn := fun d => if d == 5 then 4 else 0
  addedOn := fun d => if d == 6 then 2 else 0
  removedOn := fun _ => 0

/-- Witness: the accumulation equality of C2 instantiated on day index 3 of
a concrete sprint. -/
theorem c2_witness :
    (3 < numDays c2cfg ∧ c2cfg.startDay + ((3 : ℕ) : ℤ) ≤ c2cfg.today) ∧
      ((buildSeries c2cfg)[3 + 1]?).bind (fun p => p.totalRemaining)
        = some (round10 (remAccum c2cfg (3 + 1))) := by
  refine ⟨⟨by decide, by decide⟩, ?_⟩
  exact ((c2_remaining_forward_accumulation c2cfg).2.2.2.2 3 (by decide) (by decide)).1

/-- C6: in the generated series, the synthetic start point has no date, and
every dated point (the point at index `k+1` carries date `startDay + k`)
has `remaining`, `totalRemaining`, `timeLogged` and `cumulativeLogged` all
null when its date is strictly after today, and all non-null numbers when
its date is on or before today. -/
theorem c6_null_future_invariant (cfg : SeriesCfg) :
    (((buildSeries cfg)[0]?).map (fun p => p.day) = some none)
  ∧ ∀ k : ℕ, k < numDays cfg →
      (((buildSeries cfg)[k + 1]?).map (fun p => p.day)
          = some (some (cfg.startDay + (k : ℤ))))
      ∧ (cfg.today < cfg.startDay + (k : ℤ) →
          ((buildSeries cfg)[k + 1]?).map
              (fun p => (p.remaining, p.totalRemaining, p.timeLogged, p.cumulativeLogged))
            = some (none, none, none, none))
      ∧ (cfg.startDay + (k : ℤ) ≤ cfg.today →
          ((buildSeries cfg)[k + 1]?).map
              (fun p => (p.remaining.isSome, p.totalRemaining.isSome,
                p.timeLogged.isSome, p.cumulativeLogged.isSome))
            = some (true, true, true, true)) := by
  refine ⟨by rw [buildSeries_getElem_zero]; rfl, ?_⟩
  intro k hk
  rw [buildSeries_getElem_succ, if_pos hk]
  refine ⟨rfl, ?_, ?_⟩
  · intro hfut
    have hnp : ¬ (cfg.startDay + (k : ℤ) ≤ cfg.today) := by omega
    simp only [Option.map_some, mkPoint]
    rw [if_neg hnp, if_neg hnp, if_neg hnp, if_neg hnp]
    rfl
  · intro hpast
    simp only [Option.map_some, mkPoint]
    rw [if_pos hpast, if_pos hpast, if_pos hpast, if_pos hpast]
    rfl

/-- Series inputs for the null-future witness: today is day 6, inside the
sprint. -/
def c6cfg : SeriesCfg where
  startDay := 4
  endDay := 15
  today := 6
  maxCap := 400
  workingDays := 10
  totalOE := 60
  loggedOn := fun _ => 0
  addedOn := fun _ => 0
  removedOn := fun _ => 0

/-- Witness: day 9 of the concrete sprint lies strictly after today (day
6), and its four accumulated fields are all null. -/
theorem c6_witness :
    (5 < numDays c6cfg ∧ c6cfg.today < c6cfg.startDay + ((5 : ℕ) : ℤ)) ∧
      ((buildSeries c6cfg)[5 + 1]?).map
          (fun p => (p.remaining, p.totalRemaining, p.timeLogged, p.cumulativeLogged))
        = some (none, none, none, none) := by
  refine ⟨⟨by decide, by decide⟩, ?_⟩
  exact ((c6_null_future_invariant c6cfg).2 5 (by decide)).2.1 (by decide)

/-- When the capacity is `workingDays * 8 * teamSize`, the rounded, clamped
ideal value is exactly the claim's formula value (an integer, so rounding
is the identity). -/
theorem ideal_round10_eq (cfg : SeriesCfg) (ts : ℕ) (hwd : cfg.workingDays ≠ 0)
    (hcap : cfg.maxCap = (cfg.workingDays : ℚ) * (hoursPerDay : ℚ) * (ts : ℚ)) (e : ℕ) :
    round10 (max 0 (cfg.maxCap - dailyDecrease cfg * (e : ℚ)))
      = max 0 (cfg.maxCap - (e : ℚ) * (cfg.maxCap / (cfg.workingDays : ℚ))) := by
  have hW : ((cfg.workingDays : ℚ)) ≠ 0 := Nat.cast_ne_zero.mpr hwd
  have hdd : cfg.maxCap / (cfg.workingDays : ℚ) = (hoursPerDay : ℚ) * (ts : ℚ) := by
    rw [hcap]
    field_simp
    ring
  have hz : cfg.maxCap - dailyDecrease cfg * (e : ℚ)
      = (((cfg.workingDays : ℤ) - (e : ℤ)) * ((hoursPerDay * ts : ℕ) : ℤ) : ℚ) := by
    rw [dailyDecrease, hdd, hcap]
    push_cast
    ring
  have hz2 : cfg.maxCap - (e : ℚ) * (cfg.maxCap / (cfg.workingDays : ℚ))
      = (((cfg.workingDays : ℤ) - (e : ℤ)) * ((hoursPerDay * ts : ℕ) : ℤ) : ℚ) := by
    rw [hdd, hcap]
    push_cast
    ring
  rw [hz, hz2]
  have hmax : max (0 : ℚ) ((((cfg.workingDays : ℤ) - (e : ℤ)) * ((hoursPerDay * ts : ℕ) : ℤ) : ℚ))
      = ((max 0 (((cfg.workingDays : ℤ) - (e : ℤ)) * ((hoursPerDay * ts : ℕ) : ℤ)) : ℤ) : ℚ) := by
    rw [Int.cast_max]
    norm_num
  rw [hmax, round10_intCast]

/-- C3 (amended): with `maxCapacityHours = workingDays * 8 * teamSize`, the
generated series' ideal value is `maxCapacityHours` on the synthetic start
point and on the sprint start day; on the day `k` point it equals
`max(0, maxCapacityHours - n * maxCapacityHours / workingDays)` with `n`
the count of working days elapsed since sprint start (start day = 0
elapsed); it is flat across weekends and monotonically non-increasing over
the whole series; and the formula value at `n = workingDays` is 0.
However (see the counterexample) the *emitted* series reaches that index
only when the sprint start day is a non-working day: when the start day is
a working day the elapsed count at the sprint's last working day is
`workingDays - 1` and the final emitted ideal is `maxCapacityHours /
workingDays`, not 0. -/
theorem c3_ideal_line (cfg : SeriesCfg) (ts : ℕ) (hwd : cfg.workingDays ≠ 0)
    (hcap : cfg.maxCap = (cfg.workingDays : ℚ) * (hoursPerDay : ℚ) * (ts : ℚ)) :
    (((buildSeries cfg)[0]?).map (fun p => p.ideal) = some cfg.maxCap)
  ∧ (0 < numDays cfg → ((buildSeries cfg)[1]?).map (fun p => p.ideal) = some cfg.maxCap)
  ∧ (∀ k : ℕ, k < numDays cfg →
      ((buildSeries cfg)[k + 1]?).map (fun p => p.ideal)
        = some (max 0 (cfg.maxCap
            - (elapsedWD cfg.startDay k : ℚ) * (cfg.maxCap / (cfg.workingDays : ℚ)))))
  ∧ (∀ k : ℕ, k + 1 < numDays cfg → isWorkingDayB (cfg.startDay + 1 + (k : ℤ)) = false →
      ((buildSeries cfg)[k + 2]?).map (fun p => p.ideal)
        = ((buildSeries cfg)[k + 1]?).map (fun p => p.ideal))
  ∧ (∀ (j k : ℕ) (p q : DataPoint), j ≤ k →
      (buildSeries cfg)[j]? = some p → (buildSeries cfg)[k]? = some q → q.ideal ≤ p.ideal)
  ∧ max 0 (cfg.maxCap - (cfg.workingDays : ℚ) * (cfg.maxCap / (cfg.workingDays : ℚ))) = 0 := by
  have hW : ((cfg.workingDays : ℚ)) ≠ 0 := Nat.cast_ne_zero.mpr hwd
  have hcap0 : (0 : ℚ) ≤ cfg.maxCap := by
    rw [hcap]
    positivity
  have hratio0 : (0 : ℚ) ≤ cfg.maxCap / (cfg.workingDays : ℚ) := by
    positivity
  have hcapnat : cfg.maxCap = ((cfg.workingDays * hoursPerDay * ts : ℕ) : ℚ) := by
    rw [hcap]
    push_cast
    ring
  have hform : ∀ k : ℕ, k < numDays cfg →
      ((buildSeries cfg)[k + 1]?).map (fun p => p.ideal)
        = some (max 0 (cfg.maxCap
            - (elapsedWD cfg.startDay k : ℚ) * (cfg.maxCap / (cfg.workingDays : ℚ)))) := by
    intro k hk
    rw [buildSeries_ideal_formula cfg k hk, ideal_round10_eq cfg ts hwd hcap]
  have hstart : ((buildSeries cfg)[0]?).map (fun p => p.ideal) = some cfg.maxCap := by
    rw [buildSeries_getElem_zero]
    simp only [Option.map_some, startPoint]
    rw [hcapnat, round10_natCast]
    rfl
  refine ⟨hstart, ?_, hform, ?_, ?_, ?_⟩
  · intro hnum
    rw [hform 0 hnum]
    have he : elapsedWD cfg.startDay 0 = 0 := rfl
    rw [he]
    norm_num
    exact hcap0
  · intro k hk1 hweek
    have hk : k < numDays cfg := by omega
    rw [hform (k + 1) hk1, hform k hk]
    rw [elapsedWD_succ, hweek]
    norm_num
  · intro j k p q hjk hp hq
    have hval_le_cap : ∀ (e : ℕ),
        max 0 (cfg.maxCap - (e : ℚ) * (cfg.maxCap / (cfg.workingDays : ℚ))) ≤ cfg.maxCap := by
      intro e
      apply max_le hcap0
      have : (0 : ℚ) ≤ (e : ℚ) * (cfg.maxCap / (cfg.workingDays : ℚ)) := by positivity
      linarith
    match j, k with
    | 0, 0 =>
      rw [hp] at hq
      cases hq
      exact le_refl _
    | 0, l + 1 =>
      by_cases hl : l < numDays cfg
      · have hpv : p.ideal = cfg.maxCap := by
          have := hstart
          rw [hp] at this
          simpa using this
        have hqv : q.ideal = max 0 (cfg.maxCap
            - (elapsedWD cfg.startDay l : ℚ) * (cfg.maxCap / (cfg.workingDays : ℚ))) := by
          have := hform l hl
          rw [hq] at this
          simpa using this
        rw [hpv, hqv]
        exact hval_le_cap _
      · rw [buildSeries_getElem_succ, if_neg hl] at hq
        cases hq
    | i + 1, 0 => omega
    | i + 1, l + 1 =>
      by_cases hl : l < numDays cfg
      · have hi : i < numDays cfg := by omega
        have hpv : p.ideal = max 0 (cfg.maxCap
            - (elapsedWD cfg.startDay i : ℚ) * (cfg.maxCap / (cfg.workingDays : ℚ))) := by
          have := hform i hi
          rw [hp] at this
          simpa using this
        have hqv : q.ideal = max 0 (cfg.maxCap
            - (elapsedWD cfg.startDay l : ℚ) * (cfg.maxCap / (cfg.workingDays : ℚ))) := by
          have := hform l hl
          rw [hq] at this
          simpa using this
        rw [hpv, hqv]
        have hmono : elapsedWD cfg.startDay i ≤ elapsedWD cfg.startDay l :=
          elapsedWD_mono cfg.startDay (by omega)
        apply max_le_max (le_refl (0 : ℚ))
        have hcast : ((elapsedWD cfg.startDay i : ℕ) : ℚ) ≤ ((elapsedWD cfg.startDay l : ℕ) : ℚ) := by
          exact_mod_cast hmono
        have := mul_le_mul_of_nonneg_right hcast hratio0
        linarith
      · rw [buildSeries_getElem_succ, if_neg hl] at hq
        cases hq
  · rw [mul_div_cancel₀ cfg.maxCap hW]
    simp

/-- Series inputs as `getBurndownData` computes them for a Monday-to-Friday
two-calendar-week sprint (days 4-15, 10 working days) with a 5-person team:
`maxCapacityHours = 10 * 8 * 5 = 400`. -/
def c3cfg : SeriesCfg where
  startDay := 4
  endDay := 15
  today := 20
  maxCap := 400
  workingDays := 10
  totalOE := 100
  loggedOn := fun _ => 0
  addedOn := fun _ => 0
  removedOn := fun _ => 0

/-- C3 (as stated) is refuted on the emitted series: for the concrete
Monday-to-Friday sprint, the final data point (index 12 of 13) falls on the
sprint's last working day (day 15, a Friday), yet its ideal value is
`maxCapacityHours / workingDays = 40`, not 0, because the loop counts the
start day as 0 elapsed working days and so never reaches
`idealForDay(workingDays)`. -/
theorem c3_counterexample :
    c3cfg.maxCap = (c3cfg.workingDays : ℚ) * (hoursPerDay : ℚ) * ((5 : ℕ) : ℚ)
  ∧ numDays c3cfg = 12
  ∧ (buildSeries c3cfg).length = 13
  ∧ isWorkingDayB 15 = true
  ∧ ((buildSeries c3cfg)[12]?).map (fun p => p.day) = some (some 15)
  ∧ ((buildSeries c3cfg)[12]?).map (fun p => p.ideal) = some 40
  ∧ (40 : ℚ) ≠ 0 := by
  have h12 : (12 : ℕ) = 11 + 1 := rfl
  refine ⟨by norm_num [c3cfg, hoursPerDay], by decide, ?_, by decide, ?_, ?_, by norm_num⟩
  · rw [buildSeries_length]
    decide
  · rw [h12, buildSeries_getElem_succ, if_pos (by decide)]
    simp only [Option.map_some, mkPoint]
    norm_num [c3cfg]
  · rw [h12, buildSeries_ideal_formula c3cfg 11 (by decide)]
    have he : elapsedWD c3cfg.startDay 11 = 9 := by decide
    rw [he]
    have hdd : dailyDecrease c3cfg = 40 := by
      rw [dailyDecrease]
      norm_num [c3cfg]
    rw [hdd]
    have hmax : max (0 : ℚ) (c3cfg.maxCap - 40 * ((9 : ℕ) : ℚ)) = 40 := by
      norm_num [c3cfg]
    rw [hmax]
    have h40 := round10_intCast 40
    push_cast at h40
    rw [h40]

/-- Witness: the amended C3 formula instantiated at day index 7 (the second
Monday, day 11) of the concrete sprint: 5 working days have elapsed, so the
formula value is `400 - 5*40 = 200` — the spec's own `idealForDay(5) = 200`
scenario. -/
theorem c3_witness :
    (c3cfg.workingDays ≠ 0
      ∧ c3cfg.maxCap = (c3cfg.workingDays : ℚ) * (hoursPerDay : ℚ) * ((5 : ℕ) : ℚ)
      ∧ 7 < numDays c3cfg ∧ elapsedWD c3cfg.startDay 7 = 5) ∧
      ((buildSeries c3cfg)[7 + 1]?).map (fun p => p.ideal)
        = some (max 0 (c3cfg.maxCap
            - (elapsedWD c3cfg.startDay 7 : ℚ) * (c3cfg.maxCap / (c3cfg.workingDays : ℚ)))) := by
  refine ⟨⟨by decide, by norm_num [c3cfg, hoursPerDay], by decide, by decide⟩, ?_⟩
  exact (c3_ideal_line c3cfg 5 (by decide) (by norm_num [c3cfg, hoursPerDay])).2.2.1 7 (by decide)

/-- C4: when a baseline is stored, the get-or-create step of
`getBurndownData` replaces it exactly when the corruption heuristic trips —
entry count below 30% of the current non-Done count AND below the absolute
floor of 10 — in which case it is regenerated from the current issue set;
otherwise it is used unchanged.  A 20-entry baseline against 23 current
non-Done issues is never treated as corrupted. -/
theorem c4_baseline_corruption_repair (stored : Option Baseline) (b : Baseline)
    (sprintId : ℕ) (now : ℤ) (allIssues : List Issue) (hb : stored = some b) :
    ((baselineAfterFetch stored sprintId now allIssues).2 = true
      ↔ ((b.issues.length : ℚ) < (currentActiveCount allIssues : ℚ) * (3 / 10)
          ∧ b.issues.length < 10))
  ∧ (isCorruptBaseline b (currentActiveCount allIssues) = false →
      baselineAfterFetch stored sprintId now allIssues = (b, false))
  ∧ (isCorruptBaseline b (currentActiveCount allIssues) = true →
      baselineAfterFetch stored sprintId now allIssues
        = (saveSprintBaseline sprintId now allIssues, true))
  ∧ (∀ b20 : Baseline, b20.issues.length = 20 → ∀ cur : ℕ, cur = 23 →
      isCorruptBaseline b20 cur = false) := by
  subst hb
  refine ⟨?_, ?_, ?_, ?_⟩
  · unfold baselineAfterFetch
    by_cases hc : isCorruptBaseline b (currentActiveCount allIssues)
    · simp only [hc, if_true]
      unfold isCorruptBaseline at hc
      simp only [Bool.and_eq_true, decide_eq_true_eq] at hc
      simp only [true_iff]
      exact ⟨hc.1, by exact_mod_cast hc.2⟩
    · simp only [hc, if_false, Bool.false_eq_true]
      unfold isCorruptBaseline at hc
      simp only [Bool.and_eq_true, decide_eq_true_eq, not_and] at hc
      constructor
      · intro hfalse
        cases hfalse
      · intro ⟨h1, h2⟩
        exact absurd (by exact_mod_cast h2 : b.issues.length < 10) (hc h1)
  · intro hc
    simp [baselineAfterFetch, hc]
  · intro hc
    simp [baselineAfterFetch, hc]
  · intro b20 h20 cur hcur
    subst hcur
    unfold isCorruptBaseline
    rw [h20]
    have hlt : ¬ ((20 : ℕ) : ℚ) < ((23 : ℕ) : ℚ) * (3 / 10) := by norm_num
    rw [decide_eq_false hlt]
    rfl

/-- A stored baseline with 20 (placeholder) entries. -/
def c4baseline : Baseline :=
  { sprintId := 7, issues := List.replicate 20 { key := "K" } }

/-- A current issue set with 23 non-Done issues. -/
def c4issues : List Issue :=
  List.replicate 23 { key := "C", fields := { statusName := some "To Do" } }

theorem c4_not_corrupt : isCorruptBaseline c4baseline (currentActiveCount c4issues) = false := by
  have h20 : c4baseline.issues.length = 20 := by decide
  have hcur : currentActiveCount c4issues = 23 := by decide
  unfold isCorruptBaseline
  rw [h20, hcur]
  have hlt : ¬ ((20 : ℕ) : ℚ) < ((23 : ℕ) : ℚ) * (3 / 10) := by norm_num
  rw [decide_eq_false hlt]
  rfl

/-- Witness: the spec's 20-entries-versus-23-issues scenario, run through
the get-or-create step: the stored baseline survives unchanged. -/
theorem c4_witness :
    (some c4baseline = some c4baseline
      ∧ isCorruptBaseline c4baseline (currentActiveCount c4issues) = false) ∧
      baselineAfterFetch (some c4baseline) 7 0 c4issues = (c4baseline, false) := by
  refine ⟨⟨rfl, c4_not_corrupt⟩, ?_⟩
  exact (c4_baseline_corruption_repair (some c4baseline) c4baseline 7 0 c4issues rfl).2.1
    c4_not_corrupt

/-- C5: once a baseline is stored for the sprint, no non-reset operation
replaces it: `getBurndownData` leaves the slot holding the same value
whenever the corruption heuristic does not trip (including every failure
path), the current `getScopeChanges` never touches the slot, the remaining
endpoints never touch it, and the legacy `getScopeChanges` writes only when
the slot is empty.  Only the explicit delete/reset operations (excluded
here) replace a stored baseline. -/
theorem c5_baseline_stability (stored : Option Baseline) (b : Baseline) (op : SprintOp)
    (hb : stored = some b) (hnr : isResetLike op = false) (hnc : opCorrupts b op = false) :
    baselineStorageAfter stored op = some b := by
  subst hb
  cases op with
  | burndown env payload =>
    show (getBurndownData { env with storedBaseline := some b } payload).2 = some b
    unfold getBurndownData
    by_cases hbd : jsTruthyNat payload.boardId
    · simp only [hbd, Bool.not_true, Bool.false_eq_true, if_false]
      match hs : env.activeSprint with
      | none => simp [hs]
      | some sprint =>
        match hi : env.issuesResult with
        | .error e => simp [hs, hi]
        | .ok l =>
          have hcor : isCorruptBaseline b (currentActiveCount l) = false := by
            have h := hnc
            simp only [opCorrupts, issuesOf, hi] at h
            exact h
          simp only [hs, hi]
          simp [baselineAfterFetch, hcor]
    · simp [hbd]
  | scopeChanges => rfl
  | sprintHealth => rfl
  | atRisk => rfl
  | highPriority => rfl
  | releaseData => rfl
  | boards => rfl
  | config => rfl
  | saveCfg => rfl
  | scopeChangesLegacy fresh => rfl
  | deleteBaselineOp env payload => simp [isResetLike] at hnr
  | resetBaselineLegacy fresh => simp [isResetLike] at hnr

/-- A stored one-entry baseline and a burndown call whose issue fetch
returns no issues: the heuristic does not trip (1 is not below 0 * 0.3). -/
def c5baseline : Baseline :=
  { sprintId := 3, issues := [{ key := "B" }] }

def c5env : JiraEnv :=
  { activeSprint := some { id := 3, name := "S", startDate := 4, endDate := 15 }
    issuesResult := .ok []
    today := 10 }

def c5payload : BurndownPayload := { boardId := some 1 }

theorem c5_not_corrupt : opCorrupts c5baseline (.burndown c5env c5payload) = false := by
  have h1 : c5baseline.issues.length = 1 := by decide
  have hcur : currentActiveCount (issuesOf c5env) = 0 := by decide
  show isCorruptBaseline c5baseline (currentActiveCount (issuesOf c5env)) = false
  unfold isCorruptBaseline
  rw [h1, hcur]
  have hlt : ¬ ((1 : ℕ) : ℚ) < ((0 : ℕ) : ℚ) * (3 / 10) := by norm_num
  rw [decide_eq_false hlt]
  rfl

/-- Witness: a concrete non-reset burndown call leaves the stored baseline
untouched. -/
theorem c5_witness :
    (isResetLike (SprintOp.burndown c5env c5payload) = false
      ∧ opCorrupts c5baseline (SprintOp.burndown c5env c5payload) = false) ∧
      baselineStorageAfter (some c5baseline) (SprintOp.burndown c5env c5payload)
        = some c5baseline := by
  refine ⟨⟨rfl, c5_not_corrupt⟩, ?_⟩
  exact c5_baseline_stability (some c5baseline) c5baseline
    (SprintOp.burndown c5env c5payload) rfl rfl c5_not_corrupt

/-! ## Health classification lemmas -/

theorem secondsToHours_3600 : secondsToHours (some 3600) = 1 := by
  simp only [secondsToHours, round10, jsRound]
  norm_num

/-- Within the value range of `secondsToHours` (tenth multiples), being
within 0.1h of each other is the same as being equal. -/
theorem s2h_eq_iff_abs_lt (o s r : Option ℕ) :
    (|secondsToHours o - (secondsToHours s + secondsToHours r)| < 1 / 10)
      ↔ secondsToHours o = secondsToHours s + secondsToHours r := by
  obtain ⟨a, ha, _⟩ := secondsToHours_tenth o
  obtain ⟨b, hb, _⟩ := secondsToHours_tenth s
  obtain ⟨c, hc, _⟩ := secondsToHours_tenth r
  rw [ha, hb, hc]
  have hsum : (b : ℚ) / 10 + (c : ℚ) / 10 = ((b + c : ℤ) : ℚ) / 10 := by push_cast; ring
  rw [hsum]
  constructor
  · exact tenth_eq_of_abs_lt
  · intro h
    rw [h, sub_self, abs_zero]
    norm_num

theorem classifyHealth_under_iff (o s r : Option ℕ) :
    classifyHealth o s r = .underestimated ↔
      secondsToHours o < secondsToHours s + secondsToHours r := by
  unfold classifyHealth
  by_cases h1 : secondsToHours o < secondsToHours s + secondsToHours r
  · simp [h1]
  · by_cases h2 : secondsToHours s + secondsToHours r < secondsToHours o <;> simp [h1, h2]

theorem classifyHealth_good_iff (o s r : Option ℕ) :
    classifyHealth o s r = .good ↔
      secondsToHours s + secondsToHours r < secondsToHours o := by
  unfold classifyHealth
  by_cases h1 : secondsToHours o < secondsToHours s + secondsToHours r
  · simp [h1]
    exact le_of_lt h1
  · by_cases h2 : secondsToHours s + secondsToHours r < secondsToHours o <;> simp [h1, h2]

theorem classifyHealth_normal_iff (o s r : Option ℕ) :
    classifyHealth o s r = .normal ↔
      secondsToHours o = secondsToHours s + secondsToHours r := by
  unfold classifyHealth
  by_cases h1 : secondsToHours o < secondsToHours s + secondsToHours r
  · simp [h1]
    exact ne_of_lt h1
  · by_cases h2 : secondsToHours s + secondsToHours r < secondsToHours o
    · simp [h1, h2]
      exact ne_of_gt h2
    · simp [h1, h2]
      exact le_antisymm (not_lt.mp h2) (not_lt.mp h1)

/-- The first version's epsilon-based classifier agrees with the current
strict one on every real input. -/
theorem classifyHealthDetailed_eq (o s r : Option ℕ) :
    classifyHealthDetailed o s r = classifyHealth o s r := by
  unfold classifyHealthDetailed classifyHealth
  by_cases h1 : secondsToHours o < secondsToHours s + secondsToHours r
  · rw [if_pos h1, if_pos h1]
  · rw [if_neg h1, if_neg h1]
    by_cases h2 : secondsToHours s + secondsToHours r < secondsToHours o
    · have hne : ¬ |secondsToHours o - (secondsToHours s + secondsToHours r)| < 1 / 10 := by
        rw [s2h_eq_iff_abs_lt]
        exact ne_of_gt h2
      rw [if_neg hne, if_pos h2]
    · have heq : secondsToHours o = secondsToHours s + secondsToHours r :=
        le_antisymm (not_lt.mp h2) (not_lt.mp h1)
      have habs : |secondsToHours o - (secondsToHours s + secondsToHours r)| < 1 / 10 := by
        rw [s2h_eq_iff_abs_lt]
        exact heq
      rw [if_pos habs, if_neg h2]

/-- C8 (as stated) is refuted: an item with a zero original estimate,
1 logged hour and 0 remaining hours classifies as UNDERESTIMATED
(0 < 1), not NORMAL — the code never special-cases zero estimates. -/
theorem c8_counterexample :
    classifyHealth (some 0) (some 3600) (some 0) = .underestimated ∧
      Health.underestimated ≠ Health.normal := by
  refine ⟨?_, by decide⟩
  rw [classifyHealth_under_iff]
  rw [show secondsToHours (some 0) = 0 from rfl, secondsToHours_3600]
  norm_num

/-- C8 (amended): the health classification is UNDERESTIMATED exactly when
original < spent + remaining, GOOD exactly when original > spent +
remaining, and NORMAL exactly when they are equal — which, over the
tenth-multiple values `secondsToHours` produces, coincides with being equal
within an epsilon of 0.1h (the first version's explicit epsilon classifier
agrees with the current strict one on every input).  An item with a zero
original estimate classifies as NORMAL only when spent + remaining is zero
too; with any spent or remaining hours it is UNDERESTIMATED.  The
`original=5, spent=3, remaining=3` item classifies as UNDERESTIMATED. -/
theorem c8_health_classification :
    (∀ o s r : Option ℕ,
      (classifyHealth o s r = .underestimated ↔
        secondsToHours o < secondsToHours s + secondsToHours r)
      ∧ (classifyHealth o s r = .good ↔
        secondsToHours s + secondsToHours r < secondsToHours o)
      ∧ (classifyHealth o s r = .normal ↔
        secondsToHours o = secondsToHours s + secondsToHours r)
      ∧ (classifyHealth o s r = .normal ↔
        |secondsToHours o - (secondsToHours s + secondsToHours r)| < 1 / 10)
      ∧ classifyHealthDetailed o s r = classifyHealth o s r)
  ∧ classifyHealth (some 18000) (some 10800) (some 10800) = .underestimated := by
  constructor
  · intro o s r
    refine ⟨classifyHealth_under_iff o s r, classifyHealth_good_iff o s r,
      classifyHealth_normal_iff o s r, ?_, classifyHealthDetailed_eq o s r⟩
    rw [classifyHealth_normal_iff, s2h_eq_iff_abs_lt]
  · rw [classifyHealth_under_iff, secondsToHours_18000, secondsToHours_10800]
    norm_num

/-! ## Single-assignee team size -/

/-- C10: whenever the burndown request carries an assignee other than All
(and non-empty — the empty string is JS-falsy, i.e. treated as absent), the
computed team size is exactly 1, overriding both the configured team size
and the sprint's distinct-assignee count, so the returned data carries
`teamSize = 1` and `maxCapacity = workingDays * 8`. -/
theorem c10_single_assignee_team_size (env : JiraEnv) (payload : BurndownPayload)
    (bid : ℕ) (sprint : Sprint) (issues : List Issue) (a : String)
    (hbid : payload.boardId = some bid) (hbid0 : bid ≠ 0)
    (hsprint : env.activeSprint = some sprint)
    (hissues : env.issuesResult = .ok issues)
    (ha : payload.assignee = some a) (ha1 : a ≠ "") (ha2 : a ≠ "All") :
    computeTeamSize payload.teamSize (allAssigneesOf issues).length payload.assignee = 1
  ∧ ∃ d : BurndownData,
      (getBurndownData env payload).1 = .success d
      ∧ d.teamSize = 1
      ∧ d.workingDays = countWorkingDays sprint.startDate sprint.endDate
      ∧ d.maxCapacity = (d.workingDays : ℚ) * (hoursPerDay : ℚ) := by
  have hfa : assigneeFilterActive payload.assignee = true := by
    rw [ha]
    simp [assigneeFilterActive, ha1, ha2]
  have hts : computeTeamSize payload.teamSize (allAssigneesOf issues).length payload.assignee
      = 1 := by
    unfold computeTeamSize
    rw [hfa]
    rfl
  have htr : jsTruthyNat payload.boardId = true := by
    rw [hbid]
    simp [jsTruthyNat, hbid0]
  refine ⟨hts, burndownCompute env payload sprint issues
    (baselineAfterFetch env.storedBaseline sprint.id env.now issues).1, ?_, ?_, ?_, ?_⟩
  · simp only [getBurndownData, htr, Bool.not_true, Bool.false_eq_true, if_false, hsprint,
      hissues]
  · simp only [burndownCompute, hts]
  · simp only [burndownCompute]
  · simp only [burndownCompute, hts]
    have hcast : ((countWorkingDays sprint.startDate sprint.endDate : ℕ) : ℚ)
        * (hoursPerDay : ℚ) * ((1 : ℕ) : ℚ)
        = ((countWorkingDays sprint.startDate sprint.endDate * hoursPerDay : ℕ) : ℚ) := by
      push_cast
      ring
    rw [hcast, round10_natCast]
    push_cast
    ring

/-- Concrete single-assignee request for the C10 witness. -/
def c10env : JiraEnv :=
  { activeSprint := some { id := 2, name := "S2", startDate := 4, endDate := 15 }
    issuesResult := .ok
      [{ key := "T-1"
         fields := { assigneeDisplayName := some "alice", timeestimate := some 10800
                     statusName := some "To Do" } },
       { key := "T-2"
         fields := { assigneeDisplayName := some "bob", timeestimate := some 10800
                     statusName := some "To Do" } }]
    today := 10 }

def c10payload : BurndownPayload :=
  { boardId := some 9, assignee := some "alice", teamSize := some 7 }

/-- Witness: a board with two assignees and a configured team size of 7
still computes `teamSize = 1` under the single-assignee filter. -/
theorem c10_witness :
    (c10payload.boardId = some 9 ∧ (9 : ℕ) ≠ 0
      ∧ c10env.activeSprint = some { id := 2, name := "S2", startDate := 4, endDate := 15 }
      ∧ c10payload.assignee = some "alice"
      ∧ ("alice" : String) ≠ "" ∧ ("alice" : String) ≠ "All") ∧
      computeTeamSize c10payload.teamSize
        (allAssigneesOf (issuesOf c10env)).length c10payload.assignee = 1 := by
  refine ⟨⟨rfl, by decide, rfl, rfl, by decide, by decide⟩, ?_⟩
  exact (c10_single_assignee_team_size c10env c10payload 9
    { id := 2, name := "S2", startDate := 4, endDate := 15 } (issuesOf c10env) "alice"
    rfl (by decide) rfl rfl rfl (by decide) (by decide)).1

/-! ## Scope conservation -/

/-- Raw sum of original-estimate hours over a current issue list. -/
def rawOESum (issues : List Issue) : ℚ :=
  (issues.map (fun i => secondsToHours i.fields.timeoriginalestimate)).sum

/-- Sum of recorded original-estimate hours over baseline entries. -/
def baseOESum (bs : List BaselineIssue) : ℚ :=
  (bs.map (fun b => b.originalEstimate)).sum

theorem sum_filter_split {α : Type} (f : α → ℚ) (p : α → Bool) :
    ∀ l : List α,
      ((l.filter p).map f).sum + ((l.filter (fun x => !(p x))).map f).sum = (l.map f).sum := by
  intro l
  induction l with
  | nil => simp
  | cons x t ih =>
    by_cases hx : p x <;> simp [hx] <;> linarith [ih]

theorem sum_filter_or {α : Type} (f : α → ℚ) (p q : α → Bool) :
    ∀ l : List α,
      ((l.filter (fun x => p x || q x)).map f).sum
        = ((l.filter p).map f).sum + ((l.filter (fun x => q x && !(p x))).map f).sum := by
  intro l
  induction l with
  | nil => simp
  | cons x t ih =>
    by_cases hp : p x
    · simp [hp]
      linarith [ih]
    · by_cases hq : q x <;> simp [hp, hq] <;> linarith [ih]

/-- Summing the current issues that carry one specific key: with unique
keys and a recorded estimate matching that key, the sum is the recorded
estimate when the key is present and 0 otherwise. -/
theorem sum_filter_single_key (k : String) (v : ℚ) :
    ∀ cur : List Issue, (cur.map (fun i => i.key)).Nodup →
      (∀ i ∈ cur, i.key = k → v = secondsToHours i.fields.timeoriginalestimate) →
      ((cur.filter (fun i => k == i.key)).map
          (fun i => secondsToHours i.fields.timeoriginalestimate)).sum
        = if cur.any (fun i => i.key == k) then v else 0 := by
  intro cur
  induction cur with
  | nil => simp
  | cons i t ih =>
    intro hnodup hval
    rw [List.map_cons, List.nodup_cons] at hnodup
    by_cases hk : i.key = k
    · have hbeq : (k == i.key) = true := by simp [hk]
      have habsent : ∀ j ∈ t, ¬ (k == j.key) = true := by
        intro j hj hbad
        have hjk : j.key = k := (beq_iff_eq.mp hbad).symm
        have hmem : i.key ∈ List.map (fun x => x.key) t := by
          rw [hk, ← hjk]
          exact List.mem_map_of_mem (fun x => x.key) hj
        exact hnodup.1 hmem
      have hfilter : t.filter (fun j => k == j.key) = [] :=
        List.filter_eq_nil_iff.mpr (fun j hj => by simpa using habsent j hj)
      have hany : (i :: t).any (fun j => j.key == k) = true := by
        simp [List.any_cons, hk]
      rw [List.filter_cons, if_pos (by simpa using hbeq), hfilter]
      rw [hany]
      simp [hval i (List.mem_cons_self i t) hk]
    · have hbeq : (k == i.key) = false := by simp [Ne.symm hk]
      have hany : (i :: t).any (fun j => j.key == k) = t.any (fun j => j.key == k) := by
        simp [List.any_cons, hk]
      rw [List.filter_cons, if_neg (by simp [hbeq]), hany]
      exact ih hnodup.2 (fun j hj => hval j (List.mem_cons_of_mem i hj))

/-- The matched parts of the current set and of the baseline carry equal
original-estimate sums, provided keys are unique on both sides and baseline
entries record the matching issue's estimate. -/
theorem matched_sum_eq :
    ∀ (base : List BaselineIssue) (cur : List Issue),
      (cur.map (fun i => i.key)).Nodup →
      (base.map (fun b => b.key)).Nodup →
      (∀ i ∈ cur, ∀ b ∈ base, b.key = i.key →
        b.originalEstimate = secondsToHours i.fields.timeoriginalestimate) →
      ((cur.filter (fun i => base.any (fun b => b.key == i.key))).map
          (fun i => secondsToHours i.fields.timeoriginalestimate)).sum
        = ((base.filter (fun b => cur.any (fun i => i.key == b.key))).map
            (fun b => b.originalEstimate)).sum := by
  intro base
  induction base with
  | nil => intro cur _ _ _; simp
  | cons b rest ih =>
    intro cur hnodupC hnodupB hval
    rw [List.map_cons, List.nodup_cons] at hnodupB
    have hpred : ∀ i : Issue,
        ((b :: rest).any (fun bb => bb.key == i.key))
          = ((b.key == i.key) || rest.any (fun bb => bb.key == i.key)) := by
      intro i
      simp [List.any_cons]
    have hfcongr : cur.filter (fun i => (b :: rest).any (fun bb => bb.key == i.key))
        = cur.filter (fun i => (b.key == i.key) || rest.any (fun bb => bb.key == i.key)) :=
      List.filter_congr (fun i _ => hpred i)
    rw [hfcongr, sum_filter_or]
    have htail : cur.filter
          (fun i => rest.any (fun bb => bb.key == i.key) && !(b.key == i.key))
        = cur.filter (fun i => rest.any (fun bb => bb.key == i.key)) := by
      apply List.filter_congr
      intro i _
      by_cases hr : rest.any (fun bb => bb.key == i.key)
      · have hne : (b.key == i.key) = false := by
          rcases List.any_eq_true.mp hr with ⟨bb, hbb, hbeq⟩
          have : bb.key = i.key := beq_iff_eq.mp hbeq
          by_contra hcon
          simp only [Bool.not_eq_false] at hcon
          have hbk : b.key = i.key := beq_iff_eq.mp hcon
          exact hnodupB.1 (by rw [hbk, ← this]; exact List.mem_map_of_mem (fun x => x.key) hbb)
        simp [hr, hne]
      · simp [hr]
    rw [htail]
    have hhead := sum_filter_single_key b.key b.originalEstimate cur hnodupC
      (fun i hi hik => (hval i hi b (List.mem_cons_self b rest) hik.symm))
    rw [hhead]
    have htailsum := ih cur hnodupC hnodupB.2
      (fun i hi bb hbb => hval i hi bb (List.mem_cons_of_mem b hbb))
    rw [htailsum, List.filter_cons]
    by_cases hb : cur.any (fun i => i.key == b.key)
    · rw [if_pos (by simpa using hb), if_pos hb]
      simp
    · rw [if_neg (by simpa using hb), if_neg hb]
      simp

/-- C7 (amended): scope conservation
`effectiveOriginalTotal(current) = baselineTotal + scopeAddedTotal -
scopeRemovedTotal` holds exactly under the detector-exactness proviso: the
date-attributed added entries carry the total estimate of the current
issues whose key is absent from the baseline, the removed entries carry the
total recorded estimate of the baseline entries whose key is absent from
the current set, keys are unique on both sides, baseline entries record the
matching current issue's estimate, and the effective total coincides with
the raw sum (no parent/subtask folding).  The changelog/JQL-based detectors
of `getBurndownData` do not enforce this proviso, and the counterexample
shows the equality failing by 7 hours — far beyond the 0.1h tolerance —
when an issue enters the sprint without being recorded anywhere. -/
theorem c7_scope_conservation (env : JiraEnv) (sprint : Sprint)
    (cur : List Issue) (base : List BaselineIssue)
    (hnodupC : (cur.map (fun i => i.key)).Nodup)
    (hnodupB : (base.map (fun b => b.key)).Nodup)
    (hval : ∀ i ∈ cur, ∀ b ∈ base, b.key = i.key →
      b.originalEstimate = secondsToHours i.fields.timeoriginalestimate)
    (heff : computeEffectiveOriginalEstimate cur = rawOESum cur)
    (hadd : ((addedEntriesOf env sprint cur).map (fun e => e.originalEstimate)).sum
      = ((cur.filter (fun i => !(base.any (fun b => b.key == i.key)))).map
          (fun i => secondsToHours i.fields.timeoriginalestimate)).sum)
    (hrem : ((removedEntriesOf env sprint).map (fun e => e.originalEstimate)).sum
      = ((base.filter (fun b => !(cur.any (fun i => i.key == b.key)))).map
          (fun b => b.originalEstimate)).sum) :
    computeEffectiveOriginalEstimate cur
      = baseOESum base
        + ((addedEntriesOf env sprint cur).map (fun e => e.originalEstimate)).sum
        - ((removedEntriesOf env sprint).map (fun e => e.originalEstimate)).sum := by
  rw [heff, hadd, hrem]
  have hsplitC := sum_filter_split (fun i => secondsToHours i.fields.timeoriginalestimate)
    (fun i => base.any (fun b => b.key == i.key)) cur
  have hsplitB := sum_filter_split (fun b : BaselineIssue => b.originalEstimate)
    (fun b => cur.any (fun i => i.key == b.key)) base
  have hmatch := matched_sum_eq base cur hnodupC hnodupB hval
  unfold rawOESum baseOESum
  linarith [hsplitC, hsplitB, hmatch]

theorem secondsToHours_25200 : secondsToHours (some 25200) = 7 := by
  simp only [secondsToHours, round10, jsRound]
  norm_num

/-- A plain issue contributes its own original-estimate hours. -/
theorem contribOriginalEstimate_plain (issues : List Issue) (i : Issue)
    (hs : (buildSubtaskMap issues).subtaskKeys.contains i.key = false)
    (hp : (buildSubtaskMap issues).parentKeys.contains i.key = false) :
    contribOriginalEstimate issues i = secondsToHours i.fields.timeoriginalestimate := by
  simp only [contribOriginalEstimate, hs, hp, Bool.false_eq_true, if_false]

/-- Sprint and issue set for the scope-conservation counterexample: A (5h)
is in the baseline; B (7h) entered the sprint but was created before sprint
start and has no sprint changelog, so the added detector misses it. -/
def c7sprint : Sprint := { id := 5, name := "S5", startDate := 4, endDate := 15 }

def c7A : Issue :=
  { key := "A"
    fields := { statusName := some "To Do", timeoriginalestimate := some 18000, created := 0 } }

def c7B : Issue :=
  { key := "B"
    fields := { statusName := some "To Do", timeoriginalestimate := some 25200, created := 0 } }

def c7issues : List Issue := [c7A, c7B]

def c7blA : BaselineIssue := { key := "A", originalEstimate := 5 }

def c7baseline : Baseline := { sprintId := 5, issues := [c7blA] }

def c7env : JiraEnv :=
  { activeSprint := some c7sprint, issuesResult := .ok c7issues
    storedBaseline := some c7baseline, today := 10 }

def c7payload : BurndownPayload := { boardId := some 1 }

theorem c7_not_corrupt : isCorruptBaseline c7baseline (currentActiveCount c7issues) = false := by
  have h1 : c7baseline.issues.length = 1 := by decide
  have h2 : currentActiveCount c7issues = 2 := by decide
  unfold isCorruptBaseline
  rw [h1, h2]
  have hlt : ¬ ((1 : ℕ) : ℚ) < ((2 : ℕ) : ℚ) * (3 / 10) := by norm_num
  rw [decide_eq_false hlt]
  rfl

theorem c7result :
    (getBurndownData c7env c7payload).1
      = .success (burndownCompute c7env c7payload c7sprint c7issues c7baseline) := by
  have htr : jsTruthyNat c7payload.boardId = true := by decide
  have hs : c7env.activeSprint = some c7sprint := rfl
  have hi : c7env.issuesResult = .ok c7issues := rfl
  have hsb : c7env.storedBaseline = some c7baseline := rfl
  simp only [getBurndownData, htr, Bool.not_true, Bool.false_eq_true, if_false, hs, hi, hsb]
  have hbl : (baselineAfterFetch (some c7baseline) c7sprint.id c7env.now c7issues).1
      = c7baseline := by
    simp [baselineAfterFetch, c7_not_corrupt]
  rw [hbl]

theorem c7_totalOE :
    (burndownCompute c7env c7payload c7sprint c7issues c7baseline).totalOriginalEstimate
      = 5 := by
  have hfa : assigneeFilterActive c7payload.assignee = false := rfl
  simp only [burndownCompute, hfa, Bool.false_eq_true, if_false]
  have hsum : (c7baseline.issues.map (fun b => b.originalEstimate)).sum = 5 := by
    have h : (c7baseline.issues.map (fun b => b.originalEstimate)).sum = 5 + 0 := rfl
    rw [h]
    norm_num
  rw [hsum, if_neg (by norm_num : ¬ (5 : ℚ) = 0)]
  have h5 := round10_intCast 5
  push_cast at h5
  rw [h5]

theorem c7_added :
    (burndownCompute c7env c7payload c7sprint c7issues c7baseline).scopeAddedTotal = 0 := by
  have hfa : assigneeFilterActive c7payload.assignee = false := rfl
  simp only [burndownCompute, hfa, Bool.false_eq_true, if_false]
  have hadded : addedEntriesOf c7env c7sprint c7issues = [] := rfl
  rw [hadded]
  have h0 := round10_intCast 0
  push_cast at h0
  simp [h0]

theorem c7_removed :
    (burndownCompute c7env c7payload c7sprint c7issues c7baseline).scopeRemovedTotal = 0 := by
  have hfa : assigneeFilterActive c7payload.assignee = false := rfl
  simp only [burndownCompute, hfa, Bool.false_eq_true, if_false]
  have hremoved : removedEntriesOf c7env c7sprint = [] := rfl
  rw [hremoved]
  have h0 := round10_intCast 0
  push_cast at h0
  simp [h0]

theorem c7_currentOE : computeEffectiveOriginalEstimate c7issues = 12 := by
  have hA := contribOriginalEstimate_plain c7issues c7A (by decide) (by decide)
  have hB := contribOriginalEstimate_plain c7issues c7B (by decide) (by decide)
  have hsum : computeEffectiveOriginalEstimate c7issues
      = contribOriginalEstimate c7issues c7A + (contribOriginalEstimate c7issues c7B + 0) :=
    rfl
  rw [hsum, hA, hB, show c7A.fields.timeoriginalestimate = some 18000 from rfl,
    show c7B.fields.timeoriginalestimate = some 25200 from rfl,
    secondsToHours_18000, secondsToHours_25200]
  norm_num

/-- C7 (as stated) is refuted on `getBurndownData`: with baseline {A: 5h}
and current issues {A: 5h, B: 7h} — B created before sprint start, no
changelog evidence, nothing detected as removed — the endpoint reports
`totalOriginalEstimate = 5`, `scopeAddedTotal = 0`,
`scopeRemovedTotal = 0`, while the effective original-estimate total of the
current set is 12: the conservation equation misses by 7 hours, far beyond
the 0.1h tolerance. -/
theorem c7_counterexample :
    (taggedData (getBurndownData c7env c7payload).1).map
        (fun d => (d.totalOriginalEstimate, d.scopeAddedTotal, d.scopeRemovedTotal))
      = some (5, 0, 0)
  ∧ computeEffectiveOriginalEstimate c7issues = 12
  ∧ ¬ (|(12 : ℚ) - (5 + 0 - 0)| ≤ 1 / 10) := by
  refine ⟨?_, c7_currentOE, by norm_num⟩
  rw [c7result]
  simp only [taggedData, Option.map_some, Option.map_some', c7_totalOE, c7_added, c7_removed]

/-- Single-issue current set on which the detectors are exact. -/
def c7curW : List Issue := [c7A]

/-- Witness: the amended conservation theorem applied to a current set
where the detectors are exact (nothing added, nothing removed): 5 = 5 + 0 - 0. -/
theorem c7_witness :
    ((c7curW.map (fun i => i.key)).Nodup
      ∧ (c7baseline.issues.map (fun b => b.key)).Nodup
      ∧ computeEffectiveOriginalEstimate c7curW = rawOESum c7curW) ∧
      computeEffectiveOriginalEstimate c7curW
        = baseOESum c7baseline.issues
          + ((addedEntriesOf c7env c7sprint c7curW).map (fun e => e.originalEstimate)).sum
          - ((removedEntriesOf c7env c7sprint).map (fun e => e.originalEstimate)).sum := by
  have heff : computeEffectiveOriginalEstimate c7curW = rawOESum c7curW := by
    have hA := contribOriginalEstimate_plain c7curW c7A (by decide) (by decide)
    have hsum : computeEffectiveOriginalEstimate c7curW
        = contribOriginalEstimate c7curW c7A + 0 := rfl
    rw [hsum, hA]
    rfl
  have hadd : ((addedEntriesOf c7env c7sprint c7curW).map (fun e => e.originalEstimate)).sum
      = ((c7curW.filter (fun i => !(c7baseline.issues.any (fun b => b.key == i.key)))).map
          (fun i => secondsToHours i.fields.timeoriginalestimate)).sum := rfl
  have hrem : ((removedEntriesOf c7env c7sprint).map (fun e => e.originalEstimate)).sum
      = ((c7baseline.issues.filter (fun b => !(c7curW.any (fun i => i.key == b.key)))).map
          (fun b => b.originalEstimate)).sum := rfl
  have hval : ∀ i ∈ c7curW, ∀ b ∈ c7baseline.issues, b.key = i.key →
      b.originalEstimate = secondsToHours i.fields.timeoriginalestimate := by
    intro i hi b hb _
    have hi2 : i = c7A := by simpa [c7curW] using hi
    have hb2 : b = c7blA := by simpa [c7baseline] using hb
    subst hi2
    subst hb2
    rw [show c7A.fields.timeoriginalestimate = some 18000 from rfl, secondsToHours_18000]
    rfl
  refine ⟨⟨by decide, by decide, heff⟩, ?_⟩
  exact c7_scope_conservation c7env c7sprint c7curW c7baseline.issues
    (by decide) (by decide) hval heff hadd hrem

/-! ## Error-handling envelopes -/

def c9env : JiraEnv := {}

def c9payload : BurndownPayload := {}

/-- C9 (as stated) is refuted by `getConfig`: its response is the bare
configuration object — here the default, carrying only `boardId`,
`teamSize` and `workingDays` — with no success/failure tag at all. -/
theorem c9_counterexample :
    (getConfigResponse c9env).hasField "success" = false
  ∧ (getConfigResponse c9env).hasField "error" = false
  ∧ (getConfigResponse c9env).hasField "boardId" = true
  ∧ (getConfigResponse c9env).hasField "teamSize" = true
  ∧ (getConfigResponse c9env).hasField "workingDays" = true := by
  refine ⟨?_, ?_, ?_, ?_, ?_⟩ <;> rfl

/-- C9 (amended): every resolver endpoint except `getConfig` —
`getBoards`, `saveConfig`, `getBurndownData`, `deleteBaseline`,
`getSprintHealth`, `getAtRiskItems`, `getScopeChanges`,
`getHighPriorityItems`, `getReleaseData` — resolves to a tagged
success/failure object and never propagates an exception: a missing board
selection yields the failure message "Board ID is required", a missing
active sprint yields "No active sprint found", and a thrown fetch error
(the issue search, the board list, the config write) is caught and
returned as a failure carrying the thrown message rather than raised.
`getConfig` alone is untagged: it resolves to the stored configuration
object, falling back to the default `{boardId: null, teamSize: 10,
workingDays: 10}` both when nothing is stored and when the storage read
throws — so it, too, never raises. -/
theorem c9_error_envelopes :
    (∀ (env : JiraEnv) (payload : BurndownPayload),
      (getBurndownDataResponse env payload).hasField "success" = true
      ∧ (getSprintHealthResponse env payload).hasField "success" = true
      ∧ (getAtRiskItemsResponse env payload).hasField "success" = true
      ∧ (getScopeChangesResponse env payload).hasField "success" = true
      ∧ (getHighPriorityItemsResponse env payload).hasField "success" = true
      ∧ (getReleaseDataResponse env payload).hasField "success" = true
      ∧ (getBoardsResponse env).hasField "success" = true
      ∧ (saveConfigResponse env).hasField "success" = true
      ∧ (deleteBaselineResponse env payload).hasField "success" = true)
  ∧ (∀ (env : JiraEnv) (payload : BurndownPayload), jsTruthyNat payload.boardId = false →
      (getBurndownData env payload).1 = .failure "Board ID is required"
      ∧ getSprintHealth env payload = .failure "Board ID is required"
      ∧ getAtRiskItems env payload = .failure "Board ID is required"
      ∧ getScopeChanges env payload = .failure "Board ID is required"
      ∧ getHighPriorityItems env payload = .failure "Board ID is required"
      ∧ getReleaseData env payload = .failure "Board ID is required"
      ∧ (deleteBaseline env payload).1 = .failure "Board ID is required")
  ∧ (∀ (env : JiraEnv) (payload : BurndownPayload), jsTruthyNat payload.boardId = true →
      env.activeSprint = none →
      (getBurndownData env payload).1 = .failure "No active sprint found"
      ∧ getSprintHealth env payload = .failure "No active sprint found"
      ∧ getAtRiskItems env payload = .failure "No active sprint found"
      ∧ getScopeChanges env payload = .failure "No active sprint found"
      ∧ getHighPriorityItems env payload = .failure "No active sprint found"
      ∧ getReleaseData env payload = .failure "No active sprint found"
      ∧ (deleteBaseline env payload).1 = .failure "No active sprint found")
  ∧ (∀ (env : JiraEnv) (payload : BurndownPayload) (sprint : Sprint) (e : String),
      jsTruthyNat payload.boardId = true → env.activeSprint = some sprint →
      env.issuesResult = .error e →
      (getBurndownData env payload).1 = .failure e
      ∧ getSprintHealth env payload = .failure e
      ∧ getAtRiskItems env payload = .failure e
      ∧ getScopeChanges env payload = .failure e
      ∧ getHighPriorityItems env payload = .failure e
      ∧ getReleaseData env payload = .failure e)
  ∧ (∀ (env : JiraEnv) (e : String), env.boardsResult = .error e →
      getBoards env = .failure e)
  ∧ (∀ (env : JiraEnv) (e : String), env.saveConfigResult = .error e →
      saveConfig env = .failure e)
  ∧ (∀ (env : JiraEnv) (err : String), env.configStored = .error err →
      getConfig env = { boardId := none, teamSize := 10, workingDays := 10 })
  ∧ (∀ env : JiraEnv, env.configStored = .ok none →
      getConfig env = { boardId := none, teamSize := 10, workingDays := 10 }) := by
  refine ⟨?_, ?_, ?_, ?_, ?_, ?_, ?_, ?_⟩
  · intro env payload
    refine ⟨?_, ?_, ?_, ?_, ?_, ?_, ?_, ?_, ?_⟩
    · unfold getBurndownDataResponse
      match (getBurndownData env payload).1 with
      | .success d => rfl
      | .failure e => rfl
    · unfold getSprintHealthResponse
      match getSprintHealth env payload with
      | .success d => rfl
      | .failure e => rfl
    · unfold getAtRiskItemsResponse
      match getAtRiskItems env payload with
      | .success d => rfl
      | .failure e => rfl
    · unfold getScopeChangesResponse
      match getScopeChanges env payload with
      | .success d => rfl
      | .failure e => rfl
    · unfold getHighPriorityItemsResponse
      match getHighPriorityItems env payload with
      | .success d => rfl
      | .failure e => rfl
    · unfold getReleaseDataResponse
      match getReleaseData env payload with
      | .success d => rfl
      | .failure e => rfl
    · unfold getBoardsResponse
      match getBoards env with
      | .success bs => rfl
      | .failure e => rfl
    · unfold saveConfigResponse
      match saveConfig env with
      | .success u => rfl
      | .failure e => rfl
    · unfold deleteBaselineResponse
      match h : (deleteBaseline env payload).1 with
      | .success msg => rfl
      | .failure e => rfl
  · intro env payload hb
    refine ⟨?_, ?_, ?_, ?_, ?_, ?_, ?_⟩
    · simp [getBurndownData, hb]
    · simp [getSprintHealth, hb]
    · simp [getAtRiskItems, hb]
    · simp [getScopeChanges, hb]
    · simp [getHighPriorityItems, hb]
    · simp [getReleaseData, hb]
    · simp [deleteBaseline, hb]
  · intro env payload hb hs
    refine ⟨?_, ?_, ?_, ?_, ?_, ?_, ?_⟩
    · simp [getBurndownData, hb, hs]
    · simp [getSprintHealth, hb, hs]
    · simp [getAtRiskItems, hb, hs]
    · simp [getScopeChanges, hb, hs]
    · simp [getHighPriorityItems, hb, hs]
    · simp [getReleaseData, hb, hs]
    · simp [deleteBaseline, hb, hs]
  · intro env payload sprint e hb hs he
    refine ⟨?_, ?_, ?_, ?_, ?_, ?_⟩
    · simp [getBurndownData, hb, hs, he]
    · simp [getSprintHealth, hb, hs, he]
    · simp [getAtRiskItems, hb, hs, he]
    · simp [getScopeChanges, hb, hs, he]
    · simp [getHighPriorityItems, hb, hs, he]
    · simp [getReleaseData, hb, hs, he]
  · intro env e h
    simp [getBoards, h]
  · intro env e h
    simp [saveConfig, h]
  · intro env err h
    simp [getConfig, h]
  · intro env h
    simp [getConfig, h]

/-- Witness: the guard clauses at concrete inputs — an empty payload is a
missing board selection (exercised on `getBurndownData` and
`getAtRiskItems`), and a present board with no active sprint fails with
the sprint message. -/
theorem c9_witness :
    (jsTruthyNat c9payload.boardId = false
      ∧ jsTruthyNat (some 4 : Option ℕ) = true ∧ c9env.activeSprint = none) ∧
      ((getBurndownData c9env c9payload).1 = .failure "Board ID is required"
        ∧ getAtRiskItems c9env c9payload = .failure "Board ID is required"
        ∧ getScopeChanges c9env { boardId := some 4 } = .failure "No active sprint found"
        ∧ (getBurndownData c9env { boardId := some 4 }).1
            = .failure "No active sprint found") := by
  refine ⟨⟨rfl, rfl, rfl⟩, ?_, ?_, ?_, ?_⟩
  · exact ((c9_error_envelopes).2.1 c9env c9payload rfl).1
  · exact ((c9_error_envelopes).2.1 c9env c9payload rfl).2.2.1
  · exact ((c9_error_envelopes).2.2.1 c9env { boardId := some 4 } rfl rfl).2.2.2.1
  · exact ((c9_error_envelopes).2.2.1 c9env { boardId := some 4 } rfl rfl).1

end SprintGadgets
